import Mathlib

/-!
Verification development for the RevertIT snapshot subsystem
(`src/revertit/snapshot/enhanced_manager.py`, `src/revertit/docker/manager.py`,
`src/revertit/docker/volumes.py`, `src/revertit/docker/databases.py`,
`src/revertit/cli/enhanced_main.py`).

The Python code is shallowly embedded: filesystem and Docker state are explicit
association lists, fallible operations return `Option` or a success `Bool`
mirroring the exception/return-code structure of the source, and external
tooling (tar, docker) is modelled by its observable effect on that state.
The base `SnapshotManager` (file `snapshot/manager.py`) and the daemon-side
confirmation handler are imported by the code under analysis but their sources
are not available; those pieces are modelled from the specification and are
marked as such in their doc comments.
-/

namespace RevertIT

/-! ## Generic association-list and string helpers -/

/-- First value in an association list whose key equals `k` (Python dict lookup
on the small keyed structures used by the managers). -/
def lookupA {α : Type} (k : String) : List (String × α) → Option α
  | [] => none
  | p :: rest => if p.1 = k then some p.2 else lookupA k rest

/-- Update the first binding of `k`, or append a fresh binding (Python
`d[k] = v` / writing a file at path `k`). -/
def setA {α : Type} (k : String) (v : α) : List (String × α) → List (String × α)
  | [] => [(k, v)]
  | p :: rest => if p.1 = k then (k, v) :: rest else p :: setA k v rest

/-- Remove every binding of `k` (deleting a file or a Docker volume). -/
def removeA {α : Type} (k : String) : List (String × α) → List (String × α)
  | [] => []
  | p :: rest => if p.1 = k then removeA k rest else p :: removeA k rest

/-- Boolean membership test on string lists (Python `x in xs`). -/
def memS (v : String) : List String → Bool
  | [] => false
  | x :: rest => if x = v then true else memS v rest

/-- Boolean duplicate-freedom of a string list. -/
def nodupS : List String → Bool
  | [] => true
  | x :: rest => !(memS x rest) && nodupS rest

/-- Code-point lexicographic comparison on character lists, as Python compares
strings. -/
def charListLe : List Char → List Char → Bool
  | [], _ => true
  | _ :: _, [] => false
  | a :: as, b :: bs =>
    if a.toNat < b.toNat then true
    else if b.toNat < a.toNat then false
    else charListLe as bs

/-- Python string `<=` (code-point lexicographic order). -/
def strLe (a b : String) : Bool := charListLe a.data b.data

/-- Whether a path is absolute (`pathlib.Path.is_absolute` on POSIX: the path
starts with a slash). -/
def isAbsolutePath (p : String) : Bool :=
  match p.data with
  | [] => false
  | c :: _ => c = '/'

/-- Helper for `basename`: final path component of a character list. -/
def basenameChars : List Char → List Char → List Char
  | acc, [] => acc
  | acc, c :: rest => if c = '/' then basenameChars [] rest else basenameChars (acc ++ [c]) rest

/-- Final path component (`pathlib.Path(p).name`). -/
def basename (p : String) : String := String.mk (basenameChars [] p.data)

/-! ## Volume backup manager (`src/revertit/docker/volumes.py`) -/

/-- File contents as a list of byte values. -/
abbrev Bytes := List Nat

/-- Contents of a Docker volume: its member files with their bytes. -/
abbrev VolContents := List (String × Bytes)

/-- A `.tar.gz` archive as produced by `tar czf /backup/<name>.tar.gz -C /volume .`:
modelled as the exact file contents it packs (tar and gzip round-trip losslessly). -/
structure Archive where
  entries : VolContents
deriving DecidableEq

/-- Host-side files holding volume backups, keyed by absolute path. -/
abbrev HostFiles := List (String × Archive)

/-- Docker volumes on the host, keyed by volume name. -/
abbrev VolAssoc := List (String × VolContents)

/-- Per-volume outcome of the dockerized tar commands (`docker run --rm ...`):
`true` when the docker invocations touching that volume succeed. Volumes not
listed default to success. -/
abbrev ExecEnv := List (String × Bool)

/-- Look up whether the docker commands for `name` succeed. -/
def execOk (env : ExecEnv) (name : String) : Bool := (lookupA name env).getD true

/-- Configuration consumed by `VolumeBackupManager.__init__` (`volumes.py`
lines 20-49): `exclude_volumes`, `include_only` and `critical_volumes` sets. -/
structure VolumeConfig where
  excludeVolumes : List String
  includeOnly : List String
  criticalVolumes : List String
deriving DecidableEq

/-- Default `critical_volumes` from `VolumeBackupManager.__init__`. -/
def defaultCriticalVolumes : List String :=
  ["grafana_data", "opt_grafana_data", "postgres_data", "opt_postgres_data",
   "prometheus_data", "opt_prometheus_data", "influxdb_data", "opt_influxdb_data",
   "minio_data", "opt_minio_data", "portainer_data", "opt_portainer_data",
   "vector_data", "opt_vector_data"]

/-- First filtering pass of `_get_volumes_to_backup` (`volumes.py` lines 96-107):
skip excluded volumes; under a non-empty `include_only` keep only included or
critical volumes. -/
def keepVolume (cfg : VolumeConfig) (v : String) : Bool :=
  if memS v cfg.excludeVolumes then false
  else if !cfg.includeOnly.isEmpty && !(memS v cfg.includeOnly) then
    memS v cfg.criticalVolumes
  else true

/-- Second pass of `_get_volumes_to_backup` (`volumes.py` lines 109-112): append
every critical volume that exists on the host and is not yet selected. -/
def addCriticalVolumes (allVolumes : List String) : List String → List String → List String
  | [], acc => acc
  | c :: rest, acc =>
    addCriticalVolumes allVolumes rest
      (if memS c allVolumes && !(memS c acc) then acc ++ [c] else acc)

/-- `VolumeBackupManager._get_volumes_to_backup` (`volumes.py` lines 83-119),
given the names reported by `docker volume ls`. -/
def getVolumesToBackup (cfg : VolumeConfig) (allVolumes : List String) : List String :=
  addCriticalVolumes allVolumes cfg.criticalVolumes (allVolumes.filter (keepVolume cfg))

/-- One entry of `volumes_metadata.json` as written by `backup_volumes` /
`_backup_single_volume` (fields actually read back by the restore path). -/
structure VolMeta where
  name : String
  status : String
  backupFile : Option String
deriving DecidableEq

/-- `VolumeBackupManager._backup_single_volume` (`volumes.py` lines 121-170):
export one volume to `<volumesDir>/<name>.tar.gz` through a throwaway alpine
container. `none` is the `CalledProcessError` path (re-raised as `Exception`).
`docker run -v` auto-creates a missing named volume as empty, so absent volumes
export an empty archive. -/
def backupSingleVolume (exec : ExecEnv) (vols : VolAssoc) (volumesDirPath : String)
    (name : String) (files : HostFiles) : Option (VolMeta × HostFiles) :=
  if execOk exec name then
    let path := volumesDirPath ++ "/" ++ name ++ ".tar.gz"
    let contents := (lookupA name vols).getD []
    some ({ name := name, status := "success", backupFile := some path },
          setA path ⟨contents⟩ files)
  else none

/-- The record appended by the `except` branch of `backup_volumes`
(`volumes.py` lines 66-74) when a single volume backup raises. -/
def volFailedRecord (name : String) : VolMeta :=
  { name := name, status := "failed", backupFile := none }

/-- The per-volume loop of `backup_volumes` (`volumes.py` lines 61-74). -/
def backupVolumesLoop (exec : ExecEnv) (vols : VolAssoc) (volumesDirPath : String) :
    List String → HostFiles → List VolMeta → List VolMeta × HostFiles
  | [], files, acc => (acc, files)
  | v :: rest, files, acc =>
    match backupSingleVolume exec vols volumesDirPath v files with
    | some (m, files2) => backupVolumesLoop exec vols volumesDirPath rest files2 (acc ++ [m])
    | none => backupVolumesLoop exec vols volumesDirPath rest files (acc ++ [volFailedRecord v])

/-- `VolumeBackupManager.backup_volumes` (`volumes.py` lines 51-81): select
volumes, back each up best-effort, and commit `volumes_metadata.json` (the
returned metadata list is the committed file's contents). -/
def backupVolumes (cfg : VolumeConfig) (exec : ExecEnv) (vols : VolAssoc)
    (snapshotDirPath : String) (allVolumes : List String) (files : HostFiles) :
    List VolMeta × HostFiles :=
  backupVolumesLoop exec vols (snapshotDirPath ++ "/volumes")
    (getVolumesToBackup cfg allVolumes) files []

/-- Python truthiness of the `backup_file` metadata field (`volumes.py` line 209):
absent or empty string is falsy. -/
def backupFileTruthy : Option String → Bool
  | none => false
  | some s => if s = "" then false else true

/-- Resolution of the backup file path in `_restore_single_volume`
(`volumes.py` lines 224-226): relative paths fall back to
`<volumesDir>/<basename>`. -/
def resolveBackupPath (volumesDirPath : String) (bf : String) : String :=
  if isAbsolutePath bf then bf else volumesDirPath ++ "/" ++ basename bf

/-- `VolumeBackupManager._restore_single_volume` (`volumes.py` lines 219-265):
locate the backup archive, remove the volume (`check=False`), recreate it empty
and extract the archive into it. `none` models the raised `Exception` paths
(missing backup file, failing docker command). -/
def restoreSingleVolume (exec : ExecEnv) (files : HostFiles) (volumesDirPath : String)
    (info : VolMeta) (vols : VolAssoc) : Option VolAssoc :=
  match info.backupFile with
  | none => none
  | some bf =>
    match lookupA (resolveBackupPath volumesDirPath bf) files with
    | none => none
    | some archive =>
      if execOk exec info.name then
        some (removeA info.name vols ++ [(info.name, archive.entries)])
      else none

/-- The per-entry loop of `restore_volumes` (`volumes.py` lines 208-216): only
entries with `status == 'success'` and a truthy `backup_file` are restored; a
failing restore flips the success flag and the loop continues. -/
def restoreVolumesLoop (exec : ExecEnv) (files : HostFiles) (volumesDirPath : String) :
    List VolMeta → Bool → VolAssoc → Bool × VolAssoc
  | [], ok, vols => (ok, vols)
  | e :: rest, ok, vols =>
    if e.status = "success" then
      if backupFileTruthy e.backupFile = true then
        match restoreSingleVolume exec files volumesDirPath e vols with
        | some vols2 => restoreVolumesLoop exec files volumesDirPath rest ok vols2
        | none => restoreVolumesLoop exec files volumesDirPath rest false vols
      else restoreVolumesLoop exec files volumesDirPath rest ok vols
    else restoreVolumesLoop exec files volumesDirPath rest ok vols

/-- On-disk `volumes` directory of a Docker snapshot: its path, the parsed
`volumes_metadata.json` (`none` when missing or unparsable) and the archive
files it holds. -/
structure VolumesFs where
  path : String
  metaJson : Option (List VolMeta)
  files : HostFiles
deriving DecidableEq

/-- `VolumeBackupManager.restore_volumes` (`volumes.py` lines 185-217): a missing
volumes directory is a no-op success, missing/unreadable metadata fails, else
restore each successfully captured entry. -/
def restoreVolumes (vfsO : Option VolumesFs) (exec : ExecEnv) (vols : VolAssoc) :
    Bool × VolAssoc :=
  match vfsO with
  | none => (true, vols)
  | some v =>
    match v.metaJson with
    | none => (false, vols)
    | some es => restoreVolumesLoop exec v.files v.path es true vols

/-- Declarative success condition for restoring one captured volume entry: the
archive is locatable and the docker commands succeed. -/
def singleVolumeOk (exec : ExecEnv) (files : HostFiles) (volumesDirPath : String)
    (info : VolMeta) : Bool :=
  match info.backupFile with
  | none => false
  | some bf =>
    (lookupA (resolveBackupPath volumesDirPath bf) files).isSome && execOk exec info.name

/-- Declarative success condition for `restore_volumes`: every entry captured
with success restores. -/
def volumesRestoreSpec (vfsO : Option VolumesFs) (exec : ExecEnv) : Bool :=
  match vfsO with
  | none => true
  | some v =>
    match v.metaJson with
    | none => false
    | some es =>
      es.all fun e =>
        if e.status = "success" then
          if backupFileTruthy e.backupFile = true then singleVolumeOk exec v.files v.path e
          else true
        else true

/-- Backup of one volume immediately followed by restoring that backup (no
intervening change to the stored archive), returning the resulting contents of
the volume; `none` when either half raises. -/
def backupThenRestoreVolumeContents (exec : ExecEnv) (vols : VolAssoc)
    (volumesDirPath : String) (name : String) (files : HostFiles) : Option VolContents :=
  match backupSingleVolume exec vols volumesDirPath name files with
  | none => none
  | some (meta, files2) =>
    match restoreSingleVolume exec files2 volumesDirPath meta vols with
    | none => none
    | some vols3 => lookupA name vols3

/-! ## Database backup manager (`src/revertit/docker/databases.py`) -/

/-- One entry of `databases_metadata.json` as written by `backup_databases`
(`databases.py` lines 73-109): per-database name, `type`, container, status and
the recorded backup files. -/
structure DbEntry where
  name : String
  dtype : String
  container : String
  status : String
  backupFiles : List String
deriving DecidableEq

/-- Restore environment for one configured database of a postgres backup
directory: the database name from `db_configs[...]['databases']`, whether
`<database>.sql` exists in the backup directory, and whether the
`docker exec -i ... psql` run succeeds. -/
structure PgDbFile where
  database : String
  fileExists : Bool
  psqlOk : Bool
deriving DecidableEq

/-- One `<name>_postgresql` backup directory together with the configured
database list it is restored against. -/
structure PgDir where
  perDb : List PgDbFile
deriving DecidableEq

/-- On-disk `databases` directory of a Docker snapshot: the parsed
`databases_metadata.json` (`none` when missing or unparsable) and the
per-database postgres backup directories keyed by `<name>_postgresql`. -/
structure DbFs where
  metaJson : Option (List DbEntry)
  pgDirs : List (String × PgDir)
deriving DecidableEq

/-- The per-database loop of `_restore_postgresql` (`databases.py` lines
437-455): existing `.sql` files are piped into `psql`; the first failing run
raises, aborting later databases; missing files are skipped silently. Returns
the success flag and the databases actually restored. -/
def restorePostgresLoop : List PgDbFile → Bool × List String
  | [] => (true, [])
  | f :: rest =>
    if f.fileExists then
      if f.psqlOk then
        let r := restorePostgresLoop rest
        (r.1, f.database :: r.2)
      else (false, [])
    else restorePostgresLoop rest

/-- `DatabaseBackupManager._restore_postgresql` (`databases.py` lines 422-455):
a missing `<name>_postgresql` directory raises. -/
def restorePostgresql (dbfs : DbFs) (e : DbEntry) : Bool × List String :=
  match lookupA (e.name ++ "_postgresql") dbfs.pgDirs with
  | none => (false, [])
  | some dir => restorePostgresLoop dir.perDb

/-- `DatabaseBackupManager._restore_database` (`databases.py` lines 408-420):
dispatch on the entry's type. `_restore_influxdb` and `_restore_minio`
(lines 457-465) only log "not yet implemented" warnings and return, performing
no restore; an unsupported type raises. The second component is the list of
`(entry name, database)` restore actions actually performed. -/
def restoreDatabase (dbfs : DbFs) (e : DbEntry) : Bool × List (String × String) :=
  if e.dtype = "postgresql" then
    let r := restorePostgresql dbfs e
    (r.1, r.2.map fun d => (e.name, d))
  else if e.dtype = "influxdb" then (true, [])
  else if e.dtype = "minio" then (true, [])
  else (false, [])

/-- The per-entry loop of `restore_databases` (`databases.py` lines 397-404):
only entries captured with `status == 'success'` are restored; a failing
restore flips the success flag and the loop continues. -/
def restoreDatabasesLoop (dbfs : DbFs) :
    List DbEntry → Bool → List (String × String) → Bool × List (String × String)
  | [], ok, performed => (ok, performed)
  | e :: rest, ok, performed =>
    if e.status = "success" then
      let r := restoreDatabase dbfs e
      restoreDatabasesLoop dbfs rest (ok && r.1) (performed ++ r.2)
    else restoreDatabasesLoop dbfs rest ok performed

/-- `DatabaseBackupManager.restore_databases` (`databases.py` lines 374-406):
a missing `databases` directory is a no-op success, missing/unreadable metadata
fails, else restore each successfully captured entry. Also returns the restore
actions performed. -/
def restoreDatabases (dbfsO : Option DbFs) : Bool × List (String × String) :=
  match dbfsO with
  | none => (true, [])
  | some dbfs =>
    match dbfs.metaJson with
    | none => (false, [])
    | some es => restoreDatabasesLoop dbfs es true []

/-- Declarative success condition for restoring one postgres entry. -/
def pgRestoreOkSpec (dbfs : DbFs) (e : DbEntry) : Bool :=
  match lookupA (e.name ++ "_postgresql") dbfs.pgDirs with
  | none => false
  | some dir => dir.perDb.all fun f => !f.fileExists || f.psqlOk

/-- Declarative success condition for restoring one database entry: postgres
entries need their backup directory and all `psql` runs; influxdb and minio
entries are skipped (restore unimplemented) and count as success; other types
fail. -/
def dbEntryOkSpec (dbfs : DbFs) (e : DbEntry) : Bool :=
  if e.dtype = "postgresql" then pgRestoreOkSpec dbfs e
  else if e.dtype = "influxdb" then true
  else if e.dtype = "minio" then true
  else false

/-- Declarative success condition for `restore_databases`. -/
def dbRestoreSpec (dbfsO : Option DbFs) : Bool :=
  match dbfsO with
  | none => true
  | some dbfs =>
    match dbfs.metaJson with
    | none => false
    | some es => es.all fun e => if e.status = "success" then dbEntryOkSpec dbfs e else true

/-- Backup-time description of one configured database (`databases.py` lines
83-102): its name, container name, whether the container shows up in
`docker ps`, and whether `_backup_database` completes without raising. -/
structure DbConfigE where
  name : String
  containerName : String
  running : Bool
  backupOk : Bool
deriving DecidableEq

/-- One entry of the database backup metadata produced by `backup_databases`. -/
structure DbMeta where
  name : String
  container : String
  status : String
deriving DecidableEq

/-- `DatabaseBackupManager.backup_databases` (`databases.py` lines 73-109):
running containers are backed up best-effort; a raising backup is recorded as a
`status: 'failed'` entry; non-running containers are skipped. -/
def backupDatabasesE (cfgs : List DbConfigE) : List DbMeta :=
  cfgs.foldl
    (fun acc c =>
      if c.running then
        acc ++ [{ name := c.name, container := c.containerName,
                  status := if c.backupOk then "success" else "failed" }]
      else acc)
    []

/-! ## Docker snapshot manager (`src/revertit/docker/manager.py`) -/

/-- Fields of `docker_metadata.json` read back by the listing path
(`manager.py` line 378 reads `x.get('timestamp', '')`). -/
structure DockerMetaJson where
  timestamp : Option String
deriving DecidableEq

/-- The copy loop of `_restore_compose_files` (`manager.py` lines 312-337): one
Boolean per compose file / config directory copy; the whole block sits in a
single `try`, so the first failing copy aborts the rest and flips success. -/
def composeCopyLoop : List Bool → Bool
  | [] => true
  | c :: rest => if c then composeCopyLoop rest else false

/-- `DockerSnapshotManager._restore_compose_files` (`manager.py` lines 303-339):
a missing `compose` directory is a no-op success. -/
def restoreComposeFiles : Option (List Bool) → Bool
  | none => true
  | some copies => composeCopyLoop copies

/-- On-disk `docker` subdirectory of one snapshot: the parsed
`docker_metadata.json` (`none` when missing or unparsable), the compose
directory's copy outcomes (`none` when the directory is absent), and the
volumes and databases directories. -/
structure DockerFs where
  metaJson : Option DockerMetaJson
  composeCopies : Option (List Bool)
  volumesDir : Option VolumesFs
  dbDir : Option DbFs
deriving DecidableEq

/-- `DockerSnapshotManager.restore_docker_snapshot` (`manager.py` lines
250-301): fail when the `docker` directory or its metadata is missing;
otherwise restore compose files, volumes and databases, conjoining the three
success flags (container stop/restart failures are caught internally and do not
affect success). -/
def restoreDockerSnapshot (dfsO : Option DockerFs) (exec : ExecEnv) (vols : VolAssoc) :
    Bool × VolAssoc :=
  match dfsO with
  | none => (false, vols)
  | some f =>
    match f.metaJson with
    | none => (false, vols)
    | some _ =>
      let s1 := restoreComposeFiles f.composeCopies
      let r2 := restoreVolumes f.volumesDir exec vols
      let s3 := (restoreDatabases f.dbDir).1
      (s1 && r2.1 && s3, r2.2)

/-- Declarative success condition for `restore_docker_snapshot`: the docker
directory and metadata exist, all compose copies succeed, every successfully
captured volume restores, and every successfully captured database entry is of
a restorable kind and restores. -/
def dockerRestoreSpec (dfsO : Option DockerFs) (exec : ExecEnv) : Bool :=
  match dfsO with
  | none => false
  | some f =>
    f.metaJson.isSome && restoreComposeFiles f.composeCopies &&
      volumesRestoreSpec f.volumesDir exec && dbRestoreSpec f.dbDir

/-- Whether, after a reported restore, every database entry captured with
success (and with recorded backup files) had at least one restore action
performed for it. Influxdb/minio entries are the ones that break this. -/
def capturedDbRestored (dfsO : Option DockerFs) : Bool :=
  match dfsO with
  | none => true
  | some f =>
    match f.dbDir with
    | none => true
    | some dbfs =>
      match dbfs.metaJson with
      | none => true
      | some es =>
        es.all fun e =>
          if e.status = "success" then
            if e.backupFiles.isEmpty then true
            else (restoreDatabases (some dbfs)).2.any fun p => p.1 = e.name
          else true

/-- One compose file or configuration directory considered by
`_backup_compose_files` (`manager.py` lines 100-161): its path, whether it
exists, whether it is a directory, and whether the copy succeeds. -/
structure ComposeItem where
  path : String
  present : Bool
  isDir : Bool
  copyOk : Bool
deriving DecidableEq

/-- `DockerSnapshotManager._backup_compose_files` (`manager.py` lines 100-161):
copy each existing item best-effort, recording per-item errors in the
metadata's `errors` list and returning the backed-up paths. -/
def backupComposeFilesE (items : List ComposeItem) : List String × List String :=
  items.foldl
    (fun acc it =>
      if it.present then
        if it.copyOk then (acc.1 ++ [it.path], acc.2)
        else
          (acc.1,
           acc.2 ++ [(if it.isDir then "Failed to backup config directory "
                      else "Failed to backup compose file ") ++ it.path])
      else acc)
    ([], [])

/-- Environment of one `create_docker_snapshot` run: the backup flags from the
docker config, the compose items, the volume manager inputs, the database
configs, and the infrastructure outcomes (directory creation, metadata writes,
`docker ps` for container info). -/
structure CreateEnv where
  backupComposeFlag : Bool
  backupVolumesFlag : Bool
  backupDatabasesFlag : Bool
  composeMkdirOk : Bool
  composeItems : List ComposeItem
  volCfg : VolumeConfig
  allVolumes : List String
  volExec : ExecEnv
  vols : VolAssoc
  volStepOk : Bool
  dbConfigs : List DbConfigE
  dbStepOk : Bool
  containersOk : Bool
  metaWriteOk : Bool
deriving DecidableEq

/-- The `docker_components` object of the snapshot metadata
(`manager.py` lines 57-62). -/
structure DockerComponents where
  volumes : List VolMeta
  databases : List DbMeta
  composeFiles : List String
  containersBacked : Bool
deriving DecidableEq

/-- Empty `docker_components`, as initialised at `manager.py` lines 57-62. -/
def emptyComponents : DockerComponents :=
  { volumes := [], databases := [], composeFiles := [], containersBacked := false }

/-- The metadata record returned by `create_docker_snapshot`. -/
structure DockerMetaOut where
  components : DockerComponents
  errors : List String
deriving DecidableEq

/-- `DockerSnapshotManager.create_docker_snapshot` (`manager.py` lines 46-98).
Every failure path is caught: a compose `mkdir` failure hits the outer `try`
(recorded in `errors`, skipping the remaining steps); `_backup_docker_volumes` /
`_backup_databases` / `_backup_container_info` catch their step's exceptions
into `errors` (a `volStepOk`/`dbStepOk` failure stands for an exception before
any per-item record, e.g. at directory creation); per-item failures land in the
component lists. The function never raises and always returns metadata. -/
def createDockerSnapshot (snapshotDirPath : String) (env : CreateEnv)
    (files : HostFiles) : DockerMetaOut × HostFiles :=
  if env.backupComposeFlag && !env.composeMkdirOk then
    ({ components := emptyComponents,
       errors := ["Failed to create Docker snapshot: compose mkdir failed"] }, files)
  else
    let compose := if env.backupComposeFlag then backupComposeFilesE env.composeItems
                   else ([], [])
    let volr :=
      if env.backupVolumesFlag then
        if env.volStepOk then
          let r := backupVolumes env.volCfg env.volExec env.vols snapshotDirPath
                     env.allVolumes files
          (r.1, r.2, ([] : List String))
        else ([], files, ["Volume backup failed: step error"])
      else ([], files, [])
    let dbr :=
      if env.backupDatabasesFlag then
        if env.dbStepOk then (backupDatabasesE env.dbConfigs, ([] : List String))
        else ([], ["Database backup failed: step error"])
      else ([], [])
    let contErrs := if env.containersOk then ([] : List String)
                    else ["Container info backup failed: docker error"]
    let writeErrs := if env.metaWriteOk then ([] : List String)
                     else ["Failed to create Docker snapshot: metadata write failed"]
    ({ components := { volumes := volr.1, databases := dbr.1,
                       composeFiles := compose.1, containersBacked := env.containersOk },
       errors := compose.2 ++ volr.2.2 ++ dbr.2 ++ contErrs ++ writeErrs },
     volr.2.1)

/-- Sort key used by `list_docker_snapshots` (`manager.py` line 378):
`x.get('timestamp', '')`. -/
def dockerTsKey (m : DockerMetaJson) : String := m.timestamp.getD ""

/-- One insertion step of a stable descending sort by timestamp, the effect of
Python's `sorted(..., key=..., reverse=True)`. -/
def insertDescByTs (x : DockerMetaJson) : List DockerMetaJson → List DockerMetaJson
  | [] => [x]
  | y :: ys =>
    if strLe (dockerTsKey x) (dockerTsKey y) then y :: insertDescByTs x ys
    else x :: y :: ys

/-- Stable descending sort by timestamp. -/
def sortDescByTs (l : List DockerMetaJson) : List DockerMetaJson :=
  l.foldl (fun acc x => insertDescByTs x acc) []

/-- `DockerSnapshotManager.list_docker_snapshots` (`manager.py` lines 359-378):
collect the parsable `docker_metadata.json` of every snapshot directory that has
a `docker` subdirectory, sorted by timestamp, newest first. The input is the
snapshot-location listing as pairs of (has docker dir with readable metadata?). -/
def listDockerSnapshots (entries : List (Option DockerMetaJson)) : List DockerMetaJson :=
  sortDescByTs (entries.filterMap id)

/-- Whether a key list is descending at every adjacent pair (newest first under
Python's lexicographic string order on ISO timestamps). -/
def descAdjacent : List String → Bool
  | [] => true
  | [_] => true
  | a :: b :: rest => strLe b a && descAdjacent (b :: rest)

/-- Whether the head key of `l` is at most `a`. -/
def headLe (a : String) (l : List String) : Bool :=
  match l with
  | [] => true
  | b :: _ => strLe b a

/-- Newest-first order of a docker snapshot listing. -/
def tsSorted (l : List DockerMetaJson) : Bool := descAdjacent (l.map dockerTsKey)

/-! ## Enhanced snapshot manager (`src/revertit/snapshot/enhanced_manager.py`)

The base `SnapshotManager` it derives from lives in `snapshot/manager.py`,
which is not among the available sources; its operations are modelled from the
specification (spec §4.2 SnapshotStore) and are marked below. -/

/-- Contents of one `enhanced_metadata.json` (written at `enhanced_manager.py`
lines 86-116): the enhanced id, the wrapped system snapshot id, the enhanced
timestamp, the `type` field and the docker flag. -/
structure EnhancedMeta where
  id : String
  systemSnapshotId : String
  timestamp : String
  etype : String
  dockerEnabled : Bool
deriving DecidableEq

/-- One directory under the snapshot location: the system snapshot's id, its
base-manager metadata timestamp (modelled from the spec: the base manager's
snapshot records carry id and creation time, spec §3 Snapshot), the
spec-modelled outcome of the base manager's restore for it, the optional
`enhanced_metadata.json`, and the optional `docker` subdirectory. -/
structure SnapDir where
  sysId : String
  sysTimestamp : String
  sysRestoreOk : Bool
  enhanced : Option EnhancedMeta
  docker : Option DockerFs
deriving DecidableEq

/-- The fields of a listed snapshot dict that the enhanced manager reads:
after `enhanced_snapshot.update(enhanced_metadata)` the enhanced fields
overwrite the base ones (`enhanced_manager.py` lines 139-141). -/
structure ListedSnapshot where
  id : String
  systemSnapshotId : Option String
  timestamp : String
  etype : Option String
  dockerEnabled : Bool
deriving DecidableEq

/-- Merge of one base snapshot record with its `enhanced_metadata.json`
(`enhanced_manager.py` lines 130-149): with readable enhanced metadata the
merged dict carries the enhanced fields; otherwise the plain base record is
used (no `system_snapshot_id`, no `type`, no docker flag). -/
def mergeSnap (d : SnapDir) : ListedSnapshot :=
  match d.enhanced with
  | some m =>
    { id := m.id, systemSnapshotId := some m.systemSnapshotId,
      timestamp := m.timestamp, etype := some m.etype, dockerEnabled := m.dockerEnabled }
  | none =>
    { id := d.sysId, systemSnapshotId := none, timestamp := d.sysTimestamp,
      etype := none, dockerEnabled := false }

/-- The append loop of `EnhancedSnapshotManager.list_snapshots`
(`enhanced_manager.py` lines 125-151) over the base manager's newest-first
snapshot list (base `list_snapshots` is modelled from the spec: `list()`
returns metadata newest first, spec §4.2). -/
def listSnapshotsLoop : List SnapDir → List ListedSnapshot → List ListedSnapshot
  | [], acc => acc
  | d :: rest, acc => listSnapshotsLoop rest (acc ++ [mergeSnap d])

/-- `EnhancedSnapshotManager.list_snapshots`. -/
def listSnapshots (snaps : List SnapDir) : List ListedSnapshot :=
  listSnapshotsLoop snaps []

/-- The lookup shared by `restore_snapshot` and `delete_snapshot`
(`enhanced_manager.py` lines 156, 202): the first listed snapshot whose `id` or
`system_snapshot_id` equals the argument. -/
def findSnapshotEntry : List ListedSnapshot → String → Option ListedSnapshot
  | [], _ => none
  | e :: rest, sid =>
    if e.id = sid then some e
    else if e.systemSnapshotId = some sid then some e
    else findSnapshotEntry rest sid

/-- First snapshot directory with the given system id. -/
def findDir : List SnapDir → String → Option SnapDir
  | [], _ => none
  | d :: rest, ssid => if d.sysId = ssid then some d else findDir rest ssid

/-- The `docker` subdirectory of the snapshot directory named `ssid`
(`snapshot_location / snapshot_id / "docker"`, `manager.py` line 252). -/
def dockerFsFor (snaps : List SnapDir) (ssid : String) : Option DockerFs :=
  match findDir snaps ssid with
  | none => none
  | some d => d.docker

/-- Modelled from the spec: base `SnapshotManager.restore_snapshot`
(`snapshot/manager.py` is not under the available sources). Per spec §4.2 it
fails when the snapshot is missing, and otherwise succeeds iff every captured
file writes back; `sysRestoreOk` records that outcome per snapshot. -/
def baseRestoreSnapshot (snaps : List SnapDir) (ssid : String) : Bool :=
  match findDir snaps ssid with
  | none => false
  | some d => d.sysRestoreOk

/-- Persistent manager state: the snapshot directories in the base manager's
newest-first order, the docker-integration flag, the configured
`docker_snapshot_retention` (absent key modelled as `none`) and the base
manager's own retention limit. -/
structure MgrState where
  snaps : List SnapDir
  dockerEnabled : Bool
  dockerRetention : Option Nat
  baseMax : Option Nat
deriving DecidableEq

/-- `EnhancedSnapshotManager.restore_snapshot` (`enhanced_manager.py` lines
153-197): resolve the id against the snapshot list (failing when unknown),
restore the Docker components first when both the snapshot and the manager are
docker-enabled, then the system snapshot, reporting the conjunction. -/
def restoreSnapshot (st : MgrState) (exec : ExecEnv) (vols : VolAssoc) (sid : String) :
    Bool × VolAssoc :=
  match findSnapshotEntry (listSnapshots st.snaps) sid with
  | none => (false, vols)
  | some e =>
    let ssid := e.systemSnapshotId.getD sid
    let dockerR :=
      if e.dockerEnabled && st.dockerEnabled then
        restoreDockerSnapshot (dockerFsFor st.snaps ssid) exec vols
      else (true, vols)
    (dockerR.1 && baseRestoreSnapshot st.snaps ssid, dockerR.2)

/-- Removal of the directory named `ssid` from the snapshot location. -/
def removeDirs (ssid : String) : List SnapDir → List SnapDir
  | [] => []
  | d :: rest => if d.sysId = ssid then removeDirs ssid rest else d :: removeDirs ssid rest

/-- Modelled from the spec: base `SnapshotManager.delete_snapshot` removes the
snapshot's storage (spec §4.2 discard/delete), failing when it is missing. -/
def baseDeleteSnapshot (snaps : List SnapDir) (ssid : String) : Bool × List SnapDir :=
  match findDir snaps ssid with
  | none => (false, snaps)
  | some _ => (true, removeDirs ssid snaps)

/-- `EnhancedSnapshotManager.delete_snapshot` (`enhanced_manager.py` lines
199-214): resolve the id like `restore_snapshot` and delete the underlying
system snapshot through the base manager. -/
def deleteSnapshot (snaps : List SnapDir) (sid : String) : Bool × List SnapDir :=
  match findSnapshotEntry (listSnapshots snaps) sid with
  | none => (false, snaps)
  | some e => baseDeleteSnapshot snaps (e.systemSnapshotId.getD sid)

/-- Modelled from the spec: base `SnapshotManager.cleanup_old_snapshots` keeps
the newest `baseMax` snapshots (spec §4.2: oldest snapshots beyond the
configured maximum count are deleted); `none` means no limit applies. -/
def baseCleanup (baseMax : Option Nat) (snaps : List SnapDir) : List SnapDir :=
  match baseMax with
  | none => snaps
  | some m => snaps.take m

/-- Whether a listed snapshot is an enhanced one
(`s.get('type') == 'enhanced'`, `enhanced_manager.py` line 312). -/
def isEnhancedListed (e : ListedSnapshot) : Bool :=
  if e.etype = some "enhanced" then true else false

/-- The deletion loop of `cleanup_old_snapshots` (`enhanced_manager.py` lines
317-322); each failing delete is caught and the loop continues. -/
def cleanupDeleteLoop : List ListedSnapshot → List SnapDir → List SnapDir
  | [], snaps => snaps
  | e :: rest, snaps => cleanupDeleteLoop rest (deleteSnapshot snaps e.id).2

/-- `EnhancedSnapshotManager.cleanup_old_snapshots` (`enhanced_manager.py`
lines 301-322): run the base cleanup, then, when docker integration is enabled
and `docker_snapshot_retention` is truthy (a configured 0 is falsy in Python
and disables this phase), delete every enhanced snapshot beyond the retention
count, oldest last in the newest-first listing. -/
def cleanupOldSnapshots (st : MgrState) : List SnapDir :=
  let s1 := baseCleanup st.baseMax st.snaps
  match st.dockerRetention with
  | none => s1
  | some n =>
    if st.dockerEnabled then
      if n = 0 then s1
      else
        let enh := (listSnapshots s1).filter isEnhancedListed
        if enh.length > n then cleanupDeleteLoop (enh.drop n) s1 else s1
    else s1

/-- The system snapshot a listed entry resolves to at the public interface:
`snapshot.get('system_snapshot_id', snapshot_id)` with the entry's own id as
the argument (`enhanced_manager.py` lines 163, 209). -/
def underlyingSysId (e : ListedSnapshot) : String := e.systemSnapshotId.getD e.id

/-- Newest-first order of the merged timestamps of an enhanced listing. -/
def listedSorted (l : List ListedSnapshot) : Bool := descAdjacent (l.map (·.timestamp))

/-- Newest-first order of the base manager's snapshot records (the order the
spec guarantees for the base `list()`, spec §4.2). -/
def baseSorted (snaps : List SnapDir) : Bool := descAdjacent (snaps.map (·.sysTimestamp))

/-- The enhanced entries of the snapshot listing
(`[s for s in snapshots if s.get('type') == 'enhanced']`,
`enhanced_manager.py` line 312). -/
def listedEnhanced (snaps : List SnapDir) : List ListedSnapshot :=
  (listSnapshots snaps).filter isEnhancedListed

/-- System snapshot ids present in the snapshot location. -/
def sysIds (snaps : List SnapDir) : List String := snaps.map (·.sysId)

/-- Enhanced snapshot ids recorded in the enhanced metadata files. -/
def enhIds (snaps : List SnapDir) : List String :=
  snaps.filterMap fun d => d.enhanced.map (·.id)

/-- Well-formedness of the snapshot location as produced by `create_snapshot`:
system ids are distinct, every `enhanced_metadata.json` names its own directory
as the system snapshot, and enhanced ids are distinct from each other and from
every system id. -/
def wellFormed (snaps : List SnapDir) : Bool :=
  nodupS (sysIds snaps) && nodupS (enhIds snaps) &&
    snaps.all fun d =>
      match d.enhanced with
      | none => true
      | some m =>
        (if m.systemSnapshotId = d.sysId then true else false) &&
          !(memS m.id (sysIds snaps))

/-! ## Snapshot id creation (`enhanced_manager.py` lines 65-68) -/

/-- A Python `datetime.now()` instant, including the sub-second field that the
id format discards. -/
structure PyDateTime where
  year : Nat
  month : Nat
  day : Nat
  hour : Nat
  minute : Nat
  second : Nat
  micro : Nat
deriving DecidableEq

/-- Two-digit zero-padded decimal field of `strftime`. -/
def pad2 (n : Nat) : String := if n < 10 then "0" ++ toString n else toString n

/-- Four-digit zero-padded decimal field of `strftime` (`%Y`). -/
def pad4 (n : Nat) : String :=
  if n < 10 then "000" ++ toString n
  else if n < 100 then "00" ++ toString n
  else if n < 1000 then "0" ++ toString n
  else toString n

/-- `datetime.now().strftime("%Y%m%d_%H%M%S")` (`enhanced_manager.py` line 67). -/
def fmtSnapshotTimestamp (t : PyDateTime) : String :=
  pad4 t.year ++ pad2 t.month ++ pad2 t.day ++ "_" ++ pad2 t.hour ++ pad2 t.minute
    ++ pad2 t.second

/-- The enhanced snapshot id `f"revertit_enhanced_{timestamp}"`
(`enhanced_manager.py` line 68). -/
def enhancedSnapshotId (t : PyDateTime) : String :=
  "revertit_enhanced_" ++ fmtSnapshotTimestamp t

/-- The combined metadata written by `create_snapshot`
(`enhanced_manager.py` lines 86-109). -/
structure CombinedMeta where
  id : String
  systemSnapshotId : String
  etype : String
  dockerEnabled : Bool
  dockerComponents : DockerComponents
  dockerErrors : List String
deriving DecidableEq

/-- `EnhancedSnapshotManager.create_snapshot` (`enhanced_manager.py` lines
65-123): derive the id from the current time, create the system snapshot
through the base manager (modelled from the spec: base `create_snapshot`
returns the new system snapshot id or raises `CaptureError`, spec §4.2 —
`baseResult` is that outcome, and `none` propagates as a raise), then create
the Docker snapshot when enabled, write the combined metadata and return the
enhanced id. -/
def createSnapshot (t : PyDateTime) (dockerEnabled : Bool) (env : CreateEnv)
    (snapshotLocation : String) (baseResult : Option String) (files : HostFiles) :
    Option (String × CombinedMeta × HostFiles) :=
  let snapshotId := enhancedSnapshotId t
  match baseResult with
  | none => none
  | some sysId =>
    if dockerEnabled then
      let r := createDockerSnapshot (snapshotLocation ++ "/" ++ sysId ++ "/docker") env files
      some (snapshotId,
            { id := snapshotId, systemSnapshotId := sysId, etype := "enhanced",
              dockerEnabled := true, dockerComponents := r.1.components,
              dockerErrors := r.1.errors },
            r.2)
    else
      some (snapshotId,
            { id := snapshotId, systemSnapshotId := sysId, etype := "enhanced",
              dockerEnabled := false, dockerComponents := emptyComponents,
              dockerErrors := [] },
            files)

/-- A concrete snapshot directory whose enhanced metadata carries a timestamp
older than the next directory's: the system snapshot is the newer one, but its
`enhanced_metadata.json` records an earlier time. -/
def cexSnapNew : SnapDir :=
  { sysId := "revertit_20240102_000000", sysTimestamp := "2024-01-02T00:00:00",
    sysRestoreOk := true,
    enhanced := some { id := "revertit_enhanced_20240102_000000",
                       systemSnapshotId := "revertit_20240102_000000",
                       timestamp := "2023-12-31T23:59:59", etype := "enhanced",
                       dockerEnabled := false },
    docker := none }

/-- A concrete plain (non-enhanced) snapshot directory older than
`cexSnapNew`. -/
def cexSnapOld : SnapDir :=
  { sysId := "revertit_20240101_000000", sysTimestamp := "2024-01-01T00:00:00",
    sysRestoreOk := true, enhanced := none, docker := none }

/-- The `docker_errors` list of a `create_snapshot` result (empty when the call
raised). -/
def createdDockerErrors (r : Option (String × CombinedMeta × HostFiles)) : List String :=
  match r with
  | none => []
  | some out => out.2.1.dockerErrors

/-- The `docker_components.volumes` list of a `create_snapshot` result. -/
def createdVolumes (r : Option (String × CombinedMeta × HostFiles)) : List VolMeta :=
  match r with
  | none => []
  | some out => out.2.1.dockerComponents.volumes

/-- A concrete creation instant. -/
def c3CexTime : PyDateTime :=
  { year := 2024, month := 1, day := 1, hour := 12, minute := 0, second := 0, micro := 0 }

/-- A concrete Docker-enabled creation environment whose single volume payload
fails (its docker export errors out) while all other steps succeed. -/
def c3CexEnv : CreateEnv :=
  { backupComposeFlag := false, backupVolumesFlag := true, backupDatabasesFlag := false,
    composeMkdirOk := true, composeItems := [],
    volCfg := { excludeVolumes := [], includeOnly := [], criticalVolumes := [] },
    allVolumes := ["vol_a"], volExec := [("vol_a", false)], vols := [("vol_a", [])],
    volStepOk := true, dbConfigs := [], dbStepOk := true, containersOk := true,
    metaWriteOk := true }

/-- A concrete successfully captured influxdb database metadata entry. -/
def c1CexDbEntry : DbEntry :=
  { name := "influxdb", dtype := "influxdb", container := "influxdb",
    status := "success", backupFiles := ["influxdb_influxdb/influx_backup/meta"] }

/-- A concrete `databases` directory holding only the influxdb entry. -/
def c1CexDbFs : DbFs := { metaJson := some [c1CexDbEntry], pgDirs := [] }

/-- A concrete `docker` directory with readable metadata whose only payload is
the influxdb database backup. -/
def c1CexDockerFs : DockerFs :=
  { metaJson := some { timestamp := some "2024-01-01T00:00:01" },
    composeCopies := none, volumesDir := none, dbDir := some c1CexDbFs }

/-- A concrete docker-enabled snapshot directory whose Docker payload contains
one successfully captured influxdb database backup (and nothing else). -/
def c1CexDir : SnapDir :=
  { sysId := "revertit_20240101_000000", sysTimestamp := "2024-01-01T00:00:00",
    sysRestoreOk := true,
    enhanced := some { id := "revertit_enhanced_20240101_000000",
                       systemSnapshotId := "revertit_20240101_000000",
                       timestamp := "2024-01-01T00:00:01", etype := "enhanced",
                       dockerEnabled := true },
    docker := some c1CexDockerFs }

/-- Manager state holding only `c1CexDir`, with Docker integration enabled. -/
def c1CexState : MgrState :=
  { snaps := [c1CexDir], dockerEnabled := true, dockerRetention := none, baseMax := none }

/-- A concrete enhanced snapshot directory, the newer of a pair. -/
def c8SnapA : SnapDir :=
  { sysId := "revertit_20240102_000000", sysTimestamp := "2024-01-02T00:00:00",
    sysRestoreOk := true,
    enhanced := some { id := "revertit_enhanced_20240102_000000",
                       systemSnapshotId := "revertit_20240102_000000",
                       timestamp := "2024-01-02T00:00:01", etype := "enhanced",
                       dockerEnabled := false },
    docker := none }

/-- A concrete enhanced snapshot directory, the older of a pair. -/
def c8SnapB : SnapDir :=
  { sysId := "revertit_20240101_000000", sysTimestamp := "2024-01-01T00:00:00",
    sysRestoreOk := true,
    enhanced := some { id := "revertit_enhanced_20240101_000000",
                       systemSnapshotId := "revertit_20240101_000000",
                       timestamp := "2024-01-01T00:00:01", etype := "enhanced",
                       dockerEnabled := false },
    docker := none }

/-- A concrete manager state with two enhanced snapshots and a configured
docker retention of one. -/
def c8WitState : MgrState :=
  { snaps := [c8SnapA, c8SnapB], dockerEnabled := true, dockerRetention := some 1,
    baseMax := none }

/-! ## Confirmation state machine

The daemon-side confirmation handler is not under the available sources: the
CLI's `cmd_confirm` (`cli/enhanced_main.py` lines 506-519) is only the gateway
stub that forwards a change id to the daemon. The state machine below is
modelled from the spec. -/

/-- Pending-change states (spec §3 PendingChange). -/
inductive PendingState where
  | pending
  | confirmedSt
  | expired
  | reverted
  | revertFailed
deriving DecidableEq

/-- Outcome of a confirmation request (spec §6: `confirm(pendingChangeId) →
{ok | NotPendingError}`). -/
inductive ConfirmOutcome where
  | ok
  | notPendingError
deriving DecidableEq

/-- Modelled from the spec: the RevertEngine's handling of
`ConfirmationRequest(id)` (spec §4.4 item 2): a PENDING change is confirmed, an
already-CONFIRMED id is a no-op success, and an unknown or non-pending id fails
with `NotPendingError`. -/
def confirmChange (table : List (String × PendingState)) (cid : String) :
    ConfirmOutcome × List (String × PendingState) :=
  match lookupA cid table with
  | some PendingState.pending => (ConfirmOutcome.ok, setA cid PendingState.confirmedSt table)
  | some PendingState.confirmedSt => (ConfirmOutcome.ok, table)
  | _ => (ConfirmOutcome.notPendingError, table)

/-! ## General lemmas -/

theorem memS_iff (v : String) (l : List String) : memS v l = true ↔ v ∈ l := by
  induction l with
  | nil => simp [memS]
  | cons x rest ih =>
    simp only [memS]
    by_cases h : x = v
    · simp [h]
    · simp only [if_neg h, ih, List.mem_cons]
      exact ⟨Or.inr, fun hv => hv.elim (fun he => absurd he.symm h) id⟩

theorem lookupA_setA_self {α : Type} (k : String) (v : α) (l : List (String × α)) :
    lookupA k (setA k v l) = some v := by
  induction l with
  | nil => simp [setA, lookupA]
  | cons p rest ih =>
    by_cases h : p.1 = k
    · simp [setA, lookupA, h]
    · simp [setA, lookupA, h, ih]

theorem lookupA_setA_ne {α : Type} (k k2 : String) (v : α) (l : List (String × α))
    (h : k2 ≠ k) : lookupA k (setA k2 v l) = lookupA k l := by
  induction l with
  | nil => simp [setA, lookupA, h]
  | cons p rest ih =>
    by_cases hp : p.1 = k2
    · simp [setA, lookupA, hp, h]
    · simp [setA, lookupA, hp, ih]

theorem lookupA_isSome_setA {α : Type} (k k2 : String) (v : α) (l : List (String × α))
    (h : (lookupA k l).isSome = true) : (lookupA k (setA k2 v l)).isSome = true := by
  by_cases hk : k2 = k
  · subst hk; simp [lookupA_setA_self]
  · rw [lookupA_setA_ne _ _ _ _ hk]; exact h

theorem lookupA_removeA_append {α : Type} (k : String) (v : α) (l : List (String × α)) :
    lookupA k (removeA k l ++ [(k, v)]) = some v := by
  induction l with
  | nil => simp [removeA, lookupA]
  | cons p rest ih =>
    by_cases h : p.1 = k
    · simp [removeA, h, ih]
    · simp [removeA, h, lookupA, ih]

theorem isAbsolutePath_append (a b : String) (h : isAbsolutePath a = true) :
    isAbsolutePath (a ++ b) = true := by
  unfold isAbsolutePath at *
  rw [String.data_append]
  cases ha : a.data with
  | nil => rw [ha] at h; exact absurd h (by simp)
  | cons c rest => rw [ha] at h; simpa using h

theorem append_left_cancelS (p a b : String) (h : p ++ a = p ++ b) : a = b := by
  have hd : (p ++ a).data = (p ++ b).data := by rw [h]
  simp [String.data_append] at hd
  exact String.ext hd

/-! ## C10 — critical volumes are always selected -/

theorem mem_addCriticalVolumes_of_mem_acc (all : List String) (x : String) :
    ∀ (crit acc : List String), x ∈ acc → x ∈ addCriticalVolumes all crit acc := by
  intro crit
  induction crit with
  | nil => intro acc h; simpa [addCriticalVolumes] using h
  | cons c rest ih =>
    intro acc h
    simp only [addCriticalVolumes]
    apply ih
    split
    · exact List.mem_append_left _ h
    · exact h

theorem mem_addCriticalVolumes_of_crit (all : List String) (c : String)
    (hall : memS c all = true) :
    ∀ (crit acc : List String), c ∈ crit → c ∈ addCriticalVolumes all crit acc := by
  intro crit
  induction crit with
  | nil => intro acc h; cases h
  | cons c0 rest ih =>
    intro acc h
    simp only [addCriticalVolumes]
    rcases List.mem_cons.mp h with h0 | hrest
    · subst h0
      by_cases hacc : memS c acc = true
      · apply mem_addCriticalVolumes_of_mem_acc
        split
        · exact List.mem_append_left _ ((memS_iff c acc).mp hacc)
        · exact (memS_iff c acc).mp hacc
      · have hacc2 : memS c acc = false := by
          revert hacc; cases memS c acc <;> simp
        have hcond : (memS c all && !(memS c acc)) = true := by
          rw [hall, hacc2]; rfl
        apply mem_addCriticalVolumes_of_mem_acc
        rw [if_pos hcond]
        exact List.mem_append_right _ (List.mem_singleton.mpr rfl)
    · exact ih _ hrest

/-- C10: for every Docker volume that exists on the host and is in the
configured critical set, `_get_volumes_to_backup` includes it in the returned
backup list, even when the volume is named in `exclude_volumes` or omitted from
a non-empty `include_only` filter. -/
theorem c10_critical_volumes_always_selected (cfg : VolumeConfig)
    (allVolumes : List String) (v : String)
    (h1 : v ∈ allVolumes) (h2 : v ∈ cfg.criticalVolumes) :
    v ∈ getVolumesToBackup cfg allVolumes := by
  unfold getVolumesToBackup
  exact mem_addCriticalVolumes_of_crit allVolumes v ((memS_iff v allVolumes).mpr h1)
    cfg.criticalVolumes _ h2

/-- Witness for C10 at a concrete configuration that both excludes the critical
volume and omits it from a non-empty `include_only`. -/
theorem c10_witness :
    "grafana_data" ∈
      getVolumesToBackup
        { excludeVolumes := ["grafana_data"], includeOnly := ["web_data"],
          criticalVolumes := defaultCriticalVolumes }
        ["grafana_data", "web_data", "tmp_data"] :=
  c10_critical_volumes_always_selected _ _ _ (by decide) (by decide)

/-! ## C5 — volume capture/restore round trip -/

/-- C5: backing up an existing volume with `_backup_single_volume` and
immediately restoring that backup with `_restore_single_volume` (no intervening
change) leaves the volume contents byte-identical to the contents at capture
time, for any existing volume whose docker commands succeed and any absolute
volumes directory. -/
theorem c5_backup_restore_roundtrip (exec : ExecEnv) (vols : VolAssoc)
    (volumesDirPath name : String) (files : HostFiles) (contents : VolContents)
    (habs : isAbsolutePath volumesDirPath = true)
    (hexec : execOk exec name = true)
    (hvol : lookupA name vols = some contents) :
    backupThenRestoreVolumeContents exec vols volumesDirPath name files = some contents := by
  have hpath : isAbsolutePath (volumesDirPath ++ "/" ++ name ++ ".tar.gz") = true :=
    isAbsolutePath_append _ _ (isAbsolutePath_append _ _ (isAbsolutePath_append _ _ habs))
  unfold backupThenRestoreVolumeContents backupSingleVolume
  rw [if_pos hexec]
  simp only [hvol, Option.getD_some]
  unfold restoreSingleVolume
  simp only [resolveBackupPath, if_pos hpath, lookupA_setA_self]
  rw [if_pos hexec]
  exact lookupA_removeA_append name contents vols

/-- Witness for C5 at a concrete volume. -/
theorem c5_witness :
    backupThenRestoreVolumeContents [] [("grafana_data", [("grafana.db", [7, 7, 7])])]
      "/opt/revertit/snapshots/snap1/docker/volumes" "grafana_data" [] =
      some [("grafana.db", [7, 7, 7])] :=
  c5_backup_restore_roundtrip _ _ _ _ _ _ (by decide) (by decide) (by decide)

/-! ## C7 — snapshot id uniqueness -/

/-- C7 counterexample: the claim that any two distinct calls to
`create_snapshot` return distinct ids is false — two calls within the same
wall-clock second (distinct `datetime.now()` instants differing in the
microsecond field) format to the same `revertit_enhanced_YYYYmmdd_HHMMSS` id. -/
theorem c7_counterexample :
    ¬ (∀ t1 t2 : PyDateTime, t1 ≠ t2 → enhancedSnapshotId t1 ≠ enhancedSnapshotId t2) := by
  intro h
  exact h { year := 2024, month := 1, day := 1, hour := 12, minute := 0, second := 0,
            micro := 0 }
          { year := 2024, month := 1, day := 1, hour := 12, minute := 0, second := 0,
            micro := 500000 }
      (by decide) (by decide)

/-- C7 amended: ids are derived from the creation time formatted at one-second
resolution; two calls receive the same id exactly when their formatted
second-resolution timestamps coincide — in particular two calls in the same
formatted second collide, and calls whose formatted timestamps differ get
distinct ids. -/
theorem c7_amended_id_timestamp_derived (t1 t2 : PyDateTime) :
    (enhancedSnapshotId t1 = enhancedSnapshotId t2 ↔
      fmtSnapshotTimestamp t1 = fmtSnapshotTimestamp t2) ∧
    (t1.year = t2.year → t1.month = t2.month → t1.day = t2.day → t1.hour = t2.hour →
      t1.minute = t2.minute → t1.second = t2.second →
      enhancedSnapshotId t1 = enhancedSnapshotId t2) := by
  constructor
  · constructor
    · intro h
      exact append_left_cancelS "revertit_enhanced_" _ _ h
    · intro h
      unfold enhancedSnapshotId
      rw [h]
  · intro hy hmo hd hh hmi hs
    unfold enhancedSnapshotId fmtSnapshotTimestamp
    rw [hy, hmo, hd, hh, hmi, hs]

/-- Witness for C7's amended claim: two same-second instants collide, and two
instants in different seconds differ. -/
theorem c7_witness :
    enhancedSnapshotId
        { year := 2024, month := 1, day := 1, hour := 12, minute := 0, second := 0,
          micro := 0 } =
      enhancedSnapshotId
        { year := 2024, month := 1, day := 1, hour := 12, minute := 0, second := 0,
          micro := 999999 } :=
  (c7_amended_id_timestamp_derived _ _).2 rfl rfl rfl rfl rfl rfl

/-! ## C2 — confirmation semantics (spec-modelled state machine) -/

/-- C2: confirming a PENDING change succeeds and marks it CONFIRMED, confirming
an already-CONFIRMED id is a no-op success, and confirming an unknown or
already-EXPIRED id fails with `NotPendingError`, leaving the table unchanged
(never silently treated as success). -/
theorem c2_confirm_semantics (table : List (String × PendingState)) (cid : String) :
    (lookupA cid table = some PendingState.pending →
      confirmChange table cid =
        (ConfirmOutcome.ok, setA cid PendingState.confirmedSt table)) ∧
    (lookupA cid table = some PendingState.confirmedSt →
      confirmChange table cid = (ConfirmOutcome.ok, table)) ∧
    (lookupA cid table = none →
      confirmChange table cid = (ConfirmOutcome.notPendingError, table)) ∧
    (lookupA cid table = some PendingState.expired →
      confirmChange table cid = (ConfirmOutcome.notPendingError, table)) := by
  refine ⟨fun h => ?_, fun h => ?_, fun h => ?_, fun h => ?_⟩ <;>
    · unfold confirmChange
      rw [h]

/-- Witness for C2 on a concrete pending-change table exercising all four
cases. -/
theorem c2_witness :
    confirmChange [("pc1", PendingState.pending), ("pc2", PendingState.confirmedSt),
        ("pc3", PendingState.expired)] "pc1" =
      (ConfirmOutcome.ok,
        [("pc1", PendingState.confirmedSt), ("pc2", PendingState.confirmedSt),
         ("pc3", PendingState.expired)]) ∧
    confirmChange [("pc1", PendingState.pending), ("pc2", PendingState.confirmedSt),
        ("pc3", PendingState.expired)] "pc2" =
      (ConfirmOutcome.ok,
        [("pc1", PendingState.pending), ("pc2", PendingState.confirmedSt),
         ("pc3", PendingState.expired)]) ∧
    confirmChange [("pc1", PendingState.pending), ("pc2", PendingState.confirmedSt),
        ("pc3", PendingState.expired)] "ghost" =
      (ConfirmOutcome.notPendingError,
        [("pc1", PendingState.pending), ("pc2", PendingState.confirmedSt),
         ("pc3", PendingState.expired)]) ∧
    confirmChange [("pc1", PendingState.pending), ("pc2", PendingState.confirmedSt),
        ("pc3", PendingState.expired)] "pc3" =
      (ConfirmOutcome.notPendingError,
        [("pc1", PendingState.pending), ("pc2", PendingState.confirmedSt),
         ("pc3", PendingState.expired)]) := by
  refine ⟨?_, ?_, ?_, ?_⟩
  · have h := (c2_confirm_semantics
      [("pc1", PendingState.pending), ("pc2", PendingState.confirmedSt),
       ("pc3", PendingState.expired)] "pc1").1 (by decide)
    rw [h]; decide
  · exact (c2_confirm_semantics _ "pc2").2.1 (by decide)
  · exact (c2_confirm_semantics _ "ghost").2.2.1 (by decide)
  · exact (c2_confirm_semantics _ "pc3").2.2.2 (by decide)

/-! ## C4 — capture is not all-or-nothing for the Docker payload producers -/

theorem tarPathInj (dir a b : String)
    (h : dir ++ "/" ++ a ++ ".tar.gz" = dir ++ "/" ++ b ++ ".tar.gz") : a = b := by
  have hd := congrArg String.data h
  simp [String.data_append] at hd
  exact String.ext hd

theorem backupVolumesLoop_names (exec : ExecEnv) (vols : VolAssoc) (dir : String) :
    ∀ (sel : List String) (files : HostFiles) (acc : List VolMeta),
      (backupVolumesLoop exec vols dir sel files acc).1.map (fun m => m.name) =
        acc.map (fun m => m.name) ++ sel := by
  intro sel
  induction sel with
  | nil => intro files acc; simp [backupVolumesLoop]
  | cons v rest ih =>
    intro files acc
    unfold backupVolumesLoop backupSingleVolume
    by_cases h : execOk exec v = true
    · rw [if_pos h]
      simp only [ih]
      simp
    · rw [if_neg h]
      simp only [ih, volFailedRecord]
      simp

theorem backupVolumesLoop_status (exec : ExecEnv) (vols : VolAssoc) (dir : String) :
    ∀ (sel : List String) (files : HostFiles) (acc : List VolMeta),
      (∀ m ∈ acc, m.status = (if execOk exec m.name then "success" else "failed")) →
      ∀ m ∈ (backupVolumesLoop exec vols dir sel files acc).1,
        m.status = (if execOk exec m.name then "success" else "failed") := by
  intro sel
  induction sel with
  | nil => intro files acc hacc; simpa [backupVolumesLoop] using hacc
  | cons v rest ih =>
    intro files acc hacc
    unfold backupVolumesLoop backupSingleVolume
    by_cases h : execOk exec v = true
    · rw [if_pos h]
      apply ih
      intro m hm
      rcases List.mem_append.mp hm with hm | hm
      · exact hacc m hm
      · rcases List.mem_singleton.mp hm with rfl
        simp [h]
    · rw [if_neg h]
      apply ih
      intro m hm
      rcases List.mem_append.mp hm with hm | hm
      · exact hacc m hm
      · rcases List.mem_singleton.mp hm with rfl
        have h2 : execOk exec v = false := by
          revert h; cases execOk exec v <;> simp
        simp [volFailedRecord, h2]

theorem backupVolumesLoop_files (exec : ExecEnv) (vols : VolAssoc) (dir : String) :
    ∀ (sel : List String) (files : HostFiles) (acc : List VolMeta),
      (∀ m ∈ acc, execOk exec m.name = true →
        lookupA (dir ++ "/" ++ m.name ++ ".tar.gz") files =
          some ⟨(lookupA m.name vols).getD []⟩) →
      ∀ m ∈ (backupVolumesLoop exec vols dir sel files acc).1,
        execOk exec m.name = true →
        lookupA (dir ++ "/" ++ m.name ++ ".tar.gz")
            (backupVolumesLoop exec vols dir sel files acc).2 =
          some ⟨(lookupA m.name vols).getD []⟩ := by
  intro sel
  induction sel with
  | nil => intro files acc hacc; simpa [backupVolumesLoop] using hacc
  | cons v rest ih =>
    intro files acc hacc
    unfold backupVolumesLoop backupSingleVolume
    by_cases h : execOk exec v = true
    · rw [if_pos h]
      apply ih
      intro m hm hex
      rcases List.mem_append.mp hm with hm | hm
      · by_cases heq : dir ++ "/" ++ v ++ ".tar.gz" = dir ++ "/" ++ m.name ++ ".tar.gz"
        · have : v = m.name := tarPathInj dir v m.name heq
          rw [heq, lookupA_setA_self, this]
        · rw [lookupA_setA_ne _ _ _ _ heq]
          exact hacc m hm hex
      · rcases List.mem_singleton.mp hm with rfl
        simp only [lookupA_setA_self]
    · rw [if_neg h]
      apply ih
      intro m hm hex
      rcases List.mem_append.mp hm with hm | hm
      · exact hacc m hm hex
      · rcases List.mem_singleton.mp hm with rfl
        exact absurd hex (by simpa [volFailedRecord] using h)

/-- C4 counterexample: as stated the claim is false on the Docker payload
capture — with one unreadable volume (`vol_a`, whose docker export fails) and
one readable volume, `backup_volumes` does not fail and does commit the other
volume's archive to durable storage. -/
theorem c4_counterexample :
    ¬ (∀ (cfg : VolumeConfig) (exec : ExecEnv) (vols : VolAssoc) (snapDir : String)
        (allVolumes : List String) (files : HostFiles),
        (∃ v ∈ getVolumesToBackup cfg allVolumes, execOk exec v = false) →
        (backupVolumes cfg exec vols snapDir allVolumes files).2 = files) := by
  intro h
  have h2 := h { excludeVolumes := [], includeOnly := [], criticalVolumes := [] }
      [("vol_a", false)] [("vol_a", []), ("vol_b", [("f", [1])])]
      "/snap" ["vol_a", "vol_b"] [] ⟨"vol_a", by decide, by decide⟩
  exact absurd h2 (by decide)

/-- C4 amended: the Docker payload capture is per-item best-effort, not
all-or-nothing — `backup_volumes` returns one metadata entry per selected
volume, marks exactly the unreadable ones `failed` (recording the error
per-item instead of raising `CaptureError`), and commits the archives of all
readable volumes even when other volumes failed. -/
theorem c4_amended_backup_best_effort (cfg : VolumeConfig) (exec : ExecEnv)
    (vols : VolAssoc) (snapDir : String) (allVolumes : List String) (files : HostFiles) :
    ((backupVolumes cfg exec vols snapDir allVolumes files).1.map (fun m => m.name) =
      getVolumesToBackup cfg allVolumes) ∧
    (∀ m ∈ (backupVolumes cfg exec vols snapDir allVolumes files).1,
      m.status = (if execOk exec m.name then "success" else "failed")) ∧
    (∀ m ∈ (backupVolumes cfg exec vols snapDir allVolumes files).1,
      execOk exec m.name = true →
      lookupA (snapDir ++ "/volumes" ++ "/" ++ m.name ++ ".tar.gz")
          (backupVolumes cfg exec vols snapDir allVolumes files).2 =
        some ⟨(lookupA m.name vols).getD []⟩) := by
  refine ⟨?_, ?_, ?_⟩
  · unfold backupVolumes
    rw [backupVolumesLoop_names]
    simp
  · unfold backupVolumes
    exact backupVolumesLoop_status exec vols _ _ files [] (by intro m hm; cases hm)
  · unfold backupVolumes
    exact backupVolumesLoop_files exec vols _ _ files [] (by intro m hm; cases hm)

/-- Witness for C4's amended claim on the counterexample input. -/
theorem c4_witness :
    (volFailedRecord "vol_a").status =
      (if execOk [("vol_a", false)] (volFailedRecord "vol_a").name then "success"
       else "failed") :=
  (c4_amended_backup_best_effort ⟨[], [], []⟩ [("vol_a", false)]
      [("vol_a", []), ("vol_b", [("f", [1])])] "/snap" ["vol_a", "vol_b"] []).2.1
    (volFailedRecord "vol_a") (by decide)

/-! ## C6 — snapshot listing order -/

theorem charListLe_total : ∀ a b : List Char, charListLe a b = true ∨ charListLe b a = true := by
  intro a
  induction a with
  | nil => intro b; left; simp [charListLe]
  | cons x xs ih =>
    intro b
    cases b with
    | nil => right; simp [charListLe]
    | cons y ys =>
      by_cases h1 : x.toNat < y.toNat
      · left; simp [charListLe, h1]
      · by_cases h2 : y.toNat < x.toNat
        · right; simp [charListLe, h2]
        · rcases ih ys with h | h
          · left; simp [charListLe, h1, h2, h]
          · right; simp [charListLe, h1, h2, h]

theorem strLe_total (a b : String) : strLe a b = true ∨ strLe b a = true :=
  charListLe_total a.data b.data

theorem descAdjacent_cons (a : String) (l : List String) :
    descAdjacent (a :: l) = (headLe a l && descAdjacent l) := by
  cases l with
  | nil => simp [descAdjacent, headLe]
  | cons b rest => simp [descAdjacent, headLe]

theorem descAdjacent_insertDesc (x : DockerMetaJson) :
    ∀ l : List DockerMetaJson, descAdjacent (l.map dockerTsKey) = true →
      descAdjacent ((insertDescByTs x l).map dockerTsKey) = true := by
  intro l
  induction l with
  | nil => intro _; simp [insertDescByTs, descAdjacent]
  | cons y ys ih =>
    intro h
    rw [List.map_cons, descAdjacent_cons] at h
    have h1 : headLe (dockerTsKey y) (ys.map dockerTsKey) = true := (Bool.and_eq_true _ _).mp h |>.1
    have h2 : descAdjacent (ys.map dockerTsKey) = true := (Bool.and_eq_true _ _).mp h |>.2
    unfold insertDescByTs
    by_cases hc : strLe (dockerTsKey x) (dockerTsKey y) = true
    · rw [if_pos hc, List.map_cons, descAdjacent_cons]
      refine (Bool.and_eq_true _ _).mpr ⟨?_, ih h2⟩
      cases ys with
      | nil => simpa [insertDescByTs, headLe] using hc
      | cons z zs =>
        unfold insertDescByTs
        by_cases hz : strLe (dockerTsKey x) (dockerTsKey z) = true
        · rw [if_pos hz]
          simpa [headLe] using h1
        · rw [if_neg hz]
          simpa [headLe] using hc
    · rw [if_neg hc, List.map_cons, List.map_cons, descAdjacent_cons]
      refine (Bool.and_eq_true _ _).mpr ⟨?_, ?_⟩
      · rcases strLe_total (dockerTsKey x) (dockerTsKey y) with ht | ht
        · exact absurd ht hc
        · simpa [headLe] using ht
      · rw [descAdjacent_cons]
        exact (Bool.and_eq_true _ _).mpr ⟨h1, h2⟩

theorem descAdjacent_foldl_insert :
    ∀ (l acc : List DockerMetaJson), descAdjacent (acc.map dockerTsKey) = true →
      descAdjacent ((l.foldl (fun a x => insertDescByTs x a) acc).map dockerTsKey) = true := by
  intro l
  induction l with
  | nil => intro acc h; simpa using h
  | cons x rest ih =>
    intro acc h
    simp only [List.foldl_cons]
    exact ih _ (descAdjacent_insertDesc x acc h)

theorem listSnapshotsLoop_eq :
    ∀ (snaps : List SnapDir) (acc : List ListedSnapshot),
      listSnapshotsLoop snaps acc = acc ++ snaps.map mergeSnap := by
  intro snaps
  induction snaps with
  | nil => intro acc; simp [listSnapshotsLoop]
  | cons d rest ih =>
    intro acc
    simp [listSnapshotsLoop, ih]

theorem wellFormed_meta (snaps : List SnapDir) (h : wellFormed snaps = true) :
    ∀ d ∈ snaps, ∀ m, d.enhanced = some m →
      m.systemSnapshotId = d.sysId ∧ memS m.id (sysIds snaps) = false := by
  intro d hd m hm
  unfold wellFormed at h
  have hall := ((Bool.and_eq_true _ _).mp h).2
  have hdall := List.all_eq_true.mp hall d hd
  rw [hm] at hdall
  have hp := (Bool.and_eq_true _ _).mp hdall
  refine ⟨?_, ?_⟩
  · by_contra hne
    rw [if_neg hne] at hp
    exact absurd hp.1 (by simp)
  · have := hp.2
    revert this
    cases memS m.id (sysIds snaps) <;> simp

/-- C6 counterexample: as stated the claim is false for `list_snapshots` — on a
well-formed snapshot location whose base listing is newest-first, the merged
enhanced timestamps need not be: an enhanced metadata file with an older
timestamp than the next (older) system snapshot yields adjacent entries out of
order, because `list_snapshots` merges without re-sorting. -/
theorem c6_counterexample :
    ¬ ((∀ entries, tsSorted (listDockerSnapshots entries) = true) ∧
       (∀ snaps, wellFormed snaps = true → baseSorted snaps = true →
         listedSorted (listSnapshots snaps) = true)) := by
  intro h
  have h2 := h.2 [cexSnapNew, cexSnapOld] (by decide) (by decide)
  exact absurd h2 (by decide)

/-- C6 amended: `list_docker_snapshots` is always newest-first (it sorts by the
metadata timestamp, descending); `list_snapshots` returns exactly one merged
entry per base snapshot in the base manager's newest-first order — it preserves
that order (on a well-formed location the sequence of underlying system ids is
the base sequence) but does not re-sort by the merged timestamp. -/
theorem c6_listing_order :
    (∀ entries, tsSorted (listDockerSnapshots entries) = true) ∧
    (∀ snaps, listSnapshots snaps = snaps.map mergeSnap) ∧
    (∀ snaps, wellFormed snaps = true →
      (listSnapshots snaps).map underlyingSysId = sysIds snaps) := by
  refine ⟨?_, ?_, ?_⟩
  · intro entries
    unfold listDockerSnapshots sortDescByTs tsSorted
    exact descAdjacent_foldl_insert _ [] (by simp [descAdjacent])
  · intro snaps
    unfold listSnapshots
    simp [listSnapshotsLoop_eq]
  · intro snaps hwf
    unfold listSnapshots
    rw [listSnapshotsLoop_eq, List.nil_append, List.map_map]
    unfold sysIds
    apply List.map_congr_left
    intro d hd
    cases hm : d.enhanced with
    | none => simp [underlyingSysId, mergeSnap, hm]
    | some m =>
      have := (wellFormed_meta snaps hwf d hd m hm).1
      simp [underlyingSysId, mergeSnap, hm, this]

/-- Witness for C6's amended claim on a concrete well-formed location. -/
theorem c6_witness :
    (listSnapshots [cexSnapNew, cexSnapOld]).map underlyingSysId =
      sysIds [cexSnapNew, cexSnapOld] :=
  c6_listing_order.2.2 [cexSnapNew, cexSnapOld] (by decide)

/-! ## C3 — payload-producer errors never abort a snapshot -/

theorem backupVolumesLoop_acc_sub (exec : ExecEnv) (vols : VolAssoc) (dir : String) :
    ∀ (sel : List String) (files : HostFiles) (acc : List VolMeta) (m : VolMeta),
      m ∈ acc → m ∈ (backupVolumesLoop exec vols dir sel files acc).1 := by
  intro sel
  induction sel with
  | nil => intro files acc m hm; simpa [backupVolumesLoop] using hm
  | cons v rest ih =>
    intro files acc m hm
    unfold backupVolumesLoop backupSingleVolume
    by_cases h : execOk exec v = true
    · rw [if_pos h]
      exact ih _ _ m (List.mem_append_left _ hm)
    · rw [if_neg h]
      exact ih _ _ m (List.mem_append_left _ hm)

theorem backupVolumesLoop_failed_mem (exec : ExecEnv) (vols : VolAssoc) (dir : String) :
    ∀ (sel : List String) (files : HostFiles) (acc : List VolMeta) (v : String),
      v ∈ sel → execOk exec v = false →
      volFailedRecord v ∈ (backupVolumesLoop exec vols dir sel files acc).1 := by
  intro sel
  induction sel with
  | nil => intro files acc v hv; cases hv
  | cons w rest ih =>
    intro files acc v hv hexec
    unfold backupVolumesLoop backupSingleVolume
    rcases List.mem_cons.mp hv with rfl | hv2
    · rw [if_neg (by rw [hexec]; simp)]
      exact backupVolumesLoop_acc_sub exec vols dir rest files _ _
        (List.mem_append_right _ (List.mem_singleton.mpr rfl))
    · by_cases h : execOk exec w = true
      · rw [if_pos h]; exact ih _ _ v hv2 hexec
      · rw [if_neg h]; exact ih _ _ v hv2 hexec

theorem createDockerSnapshot_no_compose_abort (env : CreateEnv)
    (hc : env.backupComposeFlag = false ∨ env.composeMkdirOk = true) :
    (env.backupComposeFlag && !env.composeMkdirOk) = false := by
  rcases hc with hc | hc <;> simp [hc]

/-- C3 counterexample: as stated the claim is false — a failing individual
volume payload is recorded as a `status: 'failed'` entry in the
`docker_components.volumes` list, not in the metadata `errors` list, which
stays empty. -/
theorem c3_counterexample :
    ¬ (∀ (t : PyDateTime) (env : CreateEnv) (loc sysId : String) (files : HostFiles)
        (v : String), v ∈ getVolumesToBackup env.volCfg env.allVolumes →
        execOk env.volExec v = false →
        createdDockerErrors (createSnapshot t true env loc (some sysId) files) ≠ []) := by
  intro h
  exact h c3CexTime c3CexEnv "/opt/revertit/snapshots" "revertit_20240101_000000" []
      "vol_a" (by decide) (by decide) (by decide)

/-- C3 amended: with Docker integration enabled and the core system snapshot
succeeding, `create_snapshot` always commits and returns the enhanced id no
matter which optional payload backups fail; payload errors are recorded
per-payload in the snapshot metadata — whole-step failures (volume step,
database step, container-info, compose mkdir) in the `errors` list, individual
volume failures as `status: 'failed'` entries in the `docker_components`
volumes list. -/
theorem c3_payload_errors_do_not_abort (t : PyDateTime) (env : CreateEnv)
    (loc sysId : String) (files : HostFiles) :
    ((createSnapshot t true env loc (some sysId) files).map Prod.fst =
      some (enhancedSnapshotId t)) ∧
    (env.backupComposeFlag = false ∨ env.composeMkdirOk = true →
      (env.backupVolumesFlag = true → env.volStepOk = true →
        ∀ v ∈ getVolumesToBackup env.volCfg env.allVolumes,
          execOk env.volExec v = false →
          volFailedRecord v ∈ createdVolumes (createSnapshot t true env loc (some sysId) files)) ∧
      (env.backupVolumesFlag = true → env.volStepOk = false →
        "Volume backup failed: step error" ∈
          createdDockerErrors (createSnapshot t true env loc (some sysId) files)) ∧
      (env.backupDatabasesFlag = true → env.dbStepOk = false →
        "Database backup failed: step error" ∈
          createdDockerErrors (createSnapshot t true env loc (some sysId) files)) ∧
      (env.containersOk = false →
        "Container info backup failed: docker error" ∈
          createdDockerErrors (createSnapshot t true env loc (some sysId) files))) ∧
    (env.backupComposeFlag = true → env.composeMkdirOk = false →
      "Failed to create Docker snapshot: compose mkdir failed" ∈
        createdDockerErrors (createSnapshot t true env loc (some sysId) files)) := by
  refine ⟨by simp [createSnapshot], fun hc => ⟨?_, ?_, ?_, ?_⟩, fun h1 h2 => ?_⟩
  · intro hf hs v hv hexec
    have hg := createDockerSnapshot_no_compose_abort env hc
    simp only [createdVolumes, createSnapshot, if_pos rfl]
    unfold createDockerSnapshot
    simp only [hg, Bool.false_eq_true, if_false, hf, hs, if_pos rfl]
    unfold backupVolumes
    exact backupVolumesLoop_failed_mem env.volExec env.vols _ _ files [] v hv hexec
  · intro hf hs
    have hg := createDockerSnapshot_no_compose_abort env hc
    simp only [createdDockerErrors, createSnapshot, if_pos rfl]
    unfold createDockerSnapshot
    simp only [hg, Bool.false_eq_true, if_false, hf, hs]
    simp
  · intro hf hs
    have hg := createDockerSnapshot_no_compose_abort env hc
    simp only [createdDockerErrors, createSnapshot, if_pos rfl]
    unfold createDockerSnapshot
    simp only [hg, Bool.false_eq_true, if_false, hf, hs]
    simp
  · intro hcont
    have hg := createDockerSnapshot_no_compose_abort env hc
    simp only [createdDockerErrors, createSnapshot, if_pos rfl]
    unfold createDockerSnapshot
    simp only [hg, Bool.false_eq_true, if_false, hcont]
    simp
  · simp only [createdDockerErrors, createSnapshot, if_pos rfl]
    unfold createDockerSnapshot
    simp [h1, h2]

/-- Witness for C3's amended claim: the failing volume payload of the
counterexample environment is recorded as a failed component entry while the
snapshot still commits under the enhanced id. -/
theorem c3_witness :
    volFailedRecord "vol_a" ∈
      createdVolumes (createSnapshot c3CexTime true c3CexEnv "/opt/revertit/snapshots"
        (some "revertit_20240101_000000") []) ∧
    (createSnapshot c3CexTime true c3CexEnv "/opt/revertit/snapshots"
        (some "revertit_20240101_000000") []).map Prod.fst =
      some (enhancedSnapshotId c3CexTime) :=
  ⟨((c3_payload_errors_do_not_abort c3CexTime c3CexEnv "/opt/revertit/snapshots"
        "revertit_20240101_000000" []).2.1 (Or.inl rfl)).1 rfl rfl "vol_a"
      (by decide) (by decide),
   (c3_payload_errors_do_not_abort c3CexTime c3CexEnv "/opt/revertit/snapshots"
        "revertit_20240101_000000" []).1⟩

/-! ## C1 — restore failure reporting -/

theorem restoreSingleVolume_isSome (exec : ExecEnv) (files : HostFiles)
    (path : String) (e : VolMeta) (vols : VolAssoc) :
    (restoreSingleVolume exec files path e vols).isSome = singleVolumeOk exec files path e := by
  cases hbf : e.backupFile with
  | none => simp [restoreSingleVolume, singleVolumeOk, hbf]
  | some bf =>
    cases hl : lookupA (resolveBackupPath path bf) files with
    | none => simp [restoreSingleVolume, singleVolumeOk, hbf, hl]
    | some a =>
      cases hx : execOk exec e.name <;>
        simp [restoreSingleVolume, singleVolumeOk, hbf, hl, hx]

theorem restoreVolumesLoop_ok (exec : ExecEnv) (files : HostFiles) (path : String) :
    ∀ (es : List VolMeta) (ok : Bool) (vols : VolAssoc),
      (restoreVolumesLoop exec files path es ok vols).1 =
        (ok && es.all fun e =>
          if e.status = "success" then
            if backupFileTruthy e.backupFile = true then singleVolumeOk exec files path e
            else true
          else true) := by
  intro es
  induction es with
  | nil => intro ok vols; simp [restoreVolumesLoop]
  | cons e rest ih =>
    intro ok vols
    by_cases hs : e.status = "success"
    · by_cases hb : backupFileTruthy e.backupFile = true
      · cases hr : restoreSingleVolume exec files path e vols with
        | some vols2 =>
          have hsv : singleVolumeOk exec files path e = true := by
            rw [← restoreSingleVolume_isSome exec files path e vols, hr]; rfl
          simp [restoreVolumesLoop, hs, hb, hr, hsv, ih]
        | none =>
          have hsv : singleVolumeOk exec files path e = false := by
            rw [← restoreSingleVolume_isSome exec files path e vols, hr]; rfl
          simp [restoreVolumesLoop, hs, hb, hr, hsv, ih]
      · simp [restoreVolumesLoop, hs, hb, ih]
    · simp [restoreVolumesLoop, hs, ih]

theorem restoreVolumes_ok (vfsO : Option VolumesFs) (exec : ExecEnv) (vols : VolAssoc) :
    (restoreVolumes vfsO exec vols).1 = volumesRestoreSpec vfsO exec := by
  cases vfsO with
  | none => rfl
  | some v =>
    cases hm : v.metaJson with
    | none => simp [restoreVolumes, volumesRestoreSpec, hm]
    | some es => simp [restoreVolumes, volumesRestoreSpec, hm, restoreVolumesLoop_ok]

theorem restorePostgresLoop_ok :
    ∀ l : List PgDbFile, (restorePostgresLoop l).1 = l.all fun f => !f.fileExists || f.psqlOk := by
  intro l
  induction l with
  | nil => simp [restorePostgresLoop]
  | cons f rest ih =>
    by_cases h1 : f.fileExists = true
    · by_cases h2 : f.psqlOk = true
      · simp [restorePostgresLoop, h1, h2, ih]
      · have h2f : f.psqlOk = false := by revert h2; cases f.psqlOk <;> simp
        simp [restorePostgresLoop, h1, h2f]
    · have h1f : f.fileExists = false := by revert h1; cases f.fileExists <;> simp
      simp [restorePostgresLoop, h1f, ih]

theorem restoreDatabase_ok (dbfs : DbFs) (e : DbEntry) :
    (restoreDatabase dbfs e).1 = dbEntryOkSpec dbfs e := by
  unfold restoreDatabase dbEntryOkSpec
  by_cases h1 : e.dtype = "postgresql"
  · rw [if_pos h1, if_pos h1]
    unfold restorePostgresql pgRestoreOkSpec
    cases hl : lookupA (e.name ++ "_postgresql") dbfs.pgDirs with
    | none => rfl
    | some dir => simp [restorePostgresLoop_ok]
  · rw [if_neg h1, if_neg h1]
    by_cases h2 : e.dtype = "influxdb"
    · rw [if_pos h2, if_pos h2]
    · rw [if_neg h2, if_neg h2]
      by_cases h3 : e.dtype = "minio"
      · rw [if_pos h3, if_pos h3]
      · rw [if_neg h3, if_neg h3]

theorem restoreDatabasesLoop_ok (dbfs : DbFs) :
    ∀ (es : List DbEntry) (ok : Bool) (performed : List (String × String)),
      (restoreDatabasesLoop dbfs es ok performed).1 =
        (ok && es.all fun e => if e.status = "success" then dbEntryOkSpec dbfs e else true) := by
  intro es
  induction es with
  | nil => intro ok performed; simp [restoreDatabasesLoop]
  | cons e rest ih =>
    intro ok performed
    by_cases h : e.status = "success"
    · simp [restoreDatabasesLoop, h, ih, restoreDatabase_ok, Bool.and_assoc]
    · simp [restoreDatabasesLoop, h, ih]

theorem restoreDatabases_ok (dbfsO : Option DbFs) :
    (restoreDatabases dbfsO).1 = dbRestoreSpec dbfsO := by
  cases dbfsO with
  | none => rfl
  | some dbfs =>
    cases hm : dbfs.metaJson with
    | none => simp [restoreDatabases, dbRestoreSpec, hm]
    | some es => simp [restoreDatabases, dbRestoreSpec, hm, restoreDatabasesLoop_ok]

theorem restoreDockerSnapshot_ok (dfsO : Option DockerFs) (exec : ExecEnv) (vols : VolAssoc) :
    (restoreDockerSnapshot dfsO exec vols).1 = dockerRestoreSpec dfsO exec := by
  cases dfsO with
  | none => rfl
  | some f =>
    cases hm : f.metaJson with
    | none => simp [restoreDockerSnapshot, dockerRestoreSpec, hm]
    | some m =>
      simp [restoreDockerSnapshot, dockerRestoreSpec, hm, restoreVolumes_ok,
        restoreDatabases_ok, Bool.and_assoc]

/-- C1 counterexample: as stated the claim is false — on a snapshot whose
Docker payload captured an influxdb database backup with success,
`restore_snapshot` reports overall success although `_restore_influxdb` is an
unimplemented stub and performs no restore action, so captured state went
unrestored without failure being reported. -/
theorem c1_counterexample :
    ¬ (∀ (st : MgrState) (exec : ExecEnv) (vols : VolAssoc) (sid : String)
        (e : ListedSnapshot),
        findSnapshotEntry (listSnapshots st.snaps) sid = some e →
        (restoreSnapshot st exec vols sid).1 = true →
        ∀ d ∈ st.snaps, d.sysId = e.systemSnapshotId.getD sid →
          capturedDbRestored d.docker = true) := by
  intro h
  exact absurd
    (h c1CexState [] [] "revertit_enhanced_20240101_000000"
      ⟨"revertit_enhanced_20240101_000000", some "revertit_20240101_000000",
        "2024-01-01T00:00:01", some "enhanced", true⟩
      (by decide) (by decide) c1CexDir (by simp [c1CexState]) (by decide))
    (by decide)

/-- C1 amended: `restore_snapshot` returns failure whenever the snapshot id is
unknown; on a known id it reports success exactly when the system-file restore
succeeds and — when the snapshot and manager are docker-enabled — the Docker
restore succeeds, i.e. the docker directory and metadata exist, every compose
copy succeeds, every successfully captured volume restores, and every
successfully captured database entry is restorable and restores; captured
influxdb and minio database backups, however, are skipped with a warning
(restore unimplemented) and count as success, so success does not imply that
such captured state was restored. -/
theorem c1_restore_failure_reporting (st : MgrState) (exec : ExecEnv) (vols : VolAssoc)
    (sid : String) :
    (findSnapshotEntry (listSnapshots st.snaps) sid = none →
      (restoreSnapshot st exec vols sid).1 = false) ∧
    (∀ e, findSnapshotEntry (listSnapshots st.snaps) sid = some e →
      ((restoreSnapshot st exec vols sid).1 = true ↔
        ((e.dockerEnabled && st.dockerEnabled) = true →
          dockerRestoreSpec (dockerFsFor st.snaps (e.systemSnapshotId.getD sid)) exec = true) ∧
        baseRestoreSnapshot st.snaps (e.systemSnapshotId.getD sid) = true)) := by
  constructor
  · intro hfind
    unfold restoreSnapshot
    rw [hfind]
  · intro e hfind
    unfold restoreSnapshot
    rw [hfind]
    by_cases hd : (e.dockerEnabled && st.dockerEnabled) = true
    · simp [hd, restoreDockerSnapshot_ok, Bool.and_eq_true]
    · have hd2 : (e.dockerEnabled && st.dockerEnabled) = false := by
        revert hd; cases (e.dockerEnabled && st.dockerEnabled) <;> simp
      simp [hd2]

/-- Witness for C1's amended claim: on the concrete docker-enabled snapshot the
characterization applies and yields a successful restore. -/
theorem c1_witness :
    (restoreSnapshot c1CexState [] [] "revertit_enhanced_20240101_000000").1 = true :=
  ((c1_restore_failure_reporting c1CexState [] [] "revertit_enhanced_20240101_000000").2
    ⟨"revertit_enhanced_20240101_000000", some "revertit_20240101_000000",
      "2024-01-01T00:00:01", some "enhanced", true⟩
    (by decide)).mpr ⟨fun _ => by decide, by decide⟩

/-! ## Well-formed snapshot locations: lookup lemmas shared by the
restore/delete/cleanup developments -/

theorem listSnapshots_eq_map (snaps : List SnapDir) :
    listSnapshots snaps = snaps.map mergeSnap := by
  unfold listSnapshots
  rw [listSnapshotsLoop_eq]
  simp

theorem wellFormed_nodupSys (snaps : List SnapDir) (h : wellFormed snaps = true) :
    nodupS (sysIds snaps) = true := by
  unfold wellFormed at h
  exact ((Bool.and_eq_true _ _).mp ((Bool.and_eq_true _ _).mp h).1).1

theorem wellFormed_nodupEnh (snaps : List SnapDir) (h : wellFormed snaps = true) :
    nodupS (enhIds snaps) = true := by
  unfold wellFormed at h
  exact ((Bool.and_eq_true _ _).mp ((Bool.and_eq_true _ _).mp h).1).2

theorem mem_sysIds (snaps : List SnapDir) (d : SnapDir) (hd : d ∈ snaps) :
    memS d.sysId (sysIds snaps) = true :=
  (memS_iff _ _).mpr (List.mem_map_of_mem _ hd)

theorem mem_enhIds (snaps : List SnapDir) (d : SnapDir) (m : EnhancedMeta)
    (hd : d ∈ snaps) (hm : d.enhanced = some m) :
    memS m.id (enhIds snaps) = true := by
  apply (memS_iff _ _).mpr
  apply List.mem_filterMap.mpr
  exact ⟨d, hd, by rw [hm]; rfl⟩

theorem sys_inj : ∀ (snaps : List SnapDir), nodupS (sysIds snaps) = true →
    ∀ d ∈ snaps, ∀ d2 ∈ snaps, d.sysId = d2.sysId → d = d2 := by
  intro snaps
  induction snaps with
  | nil => intro _ d hd; cases hd
  | cons d0 rest ih =>
    intro h d hd d2 hd2 heq
    have hh : (!(memS d0.sysId (sysIds rest)) && nodupS (sysIds rest)) = true := by
      simpa [sysIds, nodupS] using h
    have h1 : memS d0.sysId (sysIds rest) = false := by
      have := ((Bool.and_eq_true _ _).mp hh).1
      revert this; cases memS d0.sysId (sysIds rest) <;> simp
    have h2 : nodupS (sysIds rest) = true := ((Bool.and_eq_true _ _).mp hh).2
    rcases List.mem_cons.mp hd with rfl | hd3
    · rcases List.mem_cons.mp hd2 with rfl | hd4
      · rfl
      · exact absurd (heq ▸ mem_sysIds rest d2 hd4) (by rw [h1]; simp)
    · rcases List.mem_cons.mp hd2 with rfl | hd4
      · exact absurd (heq ▸ mem_sysIds rest d hd3) (by rw [h1]; simp)
      · exact ih h2 d hd3 d2 hd4 heq

theorem enh_inj : ∀ (snaps : List SnapDir), nodupS (enhIds snaps) = true →
    ∀ d ∈ snaps, ∀ d2 ∈ snaps, ∀ m m2, d.enhanced = some m → d2.enhanced = some m2 →
      m.id = m2.id → d = d2 := by
  intro snaps
  induction snaps with
  | nil => intro _ d hd; cases hd
  | cons d0 rest ih =>
    intro h d hd d2 hd2 m m2 hm hm2 heq
    rcases List.mem_cons.mp hd with rfl | hd3
    · rcases List.mem_cons.mp hd2 with rfl | hd4
      · rfl
      · have hh : (!(memS m.id (enhIds rest)) && nodupS (enhIds rest)) = true := by
          simpa [enhIds, List.filterMap_cons, hm, nodupS] using h
        have h1 : memS m.id (enhIds rest) = false := by
          have := ((Bool.and_eq_true _ _).mp hh).1
          revert this; cases memS m.id (enhIds rest) <;> simp
        exact absurd (heq ▸ mem_enhIds rest d2 m2 hd4 hm2) (by rw [h1]; simp)
    · rcases List.mem_cons.mp hd2 with rfl | hd4
      · have hh : (!(memS m2.id (enhIds rest)) && nodupS (enhIds rest)) = true := by
          simpa [enhIds, List.filterMap_cons, hm2, nodupS] using h
        have h1 : memS m2.id (enhIds rest) = false := by
          have := ((Bool.and_eq_true _ _).mp hh).1
          revert this; cases memS m2.id (enhIds rest) <;> simp
        exact absurd (heq ▸ mem_enhIds rest d m hd3 hm) (by rw [h1]; simp)
      · have h2 : nodupS (enhIds rest) = true := by
          cases he : d0.enhanced with
          | none => simpa [enhIds, List.filterMap_cons, he] using h
          | some m0 =>
            have hh : (!(memS m0.id (enhIds rest)) && nodupS (enhIds rest)) = true := by
              simpa [enhIds, List.filterMap_cons, he, nodupS] using h
            exact ((Bool.and_eq_true _ _).mp hh).2
        exact ih h2 d hd3 d2 hd4 m m2 hm hm2 heq

theorem findSnapshotEntry_unique (sid : String) (e : ListedSnapshot) :
    ∀ entries : List ListedSnapshot, e ∈ entries →
      (e.id = sid ∨ e.systemSnapshotId = some sid) →
      (∀ e2 ∈ entries, (e2.id = sid ∨ e2.systemSnapshotId = some sid) → e2 = e) →
      findSnapshotEntry entries sid = some e := by
  intro entries
  induction entries with
  | nil => intro he; cases he
  | cons e0 rest ih =>
    intro he hmatch huniq
    unfold findSnapshotEntry
    by_cases h1 : e0.id = sid
    · rw [if_pos h1]
      rw [huniq e0 (List.mem_cons_self _ _) (Or.inl h1)]
    · rw [if_neg h1]
      by_cases h2 : e0.systemSnapshotId = some sid
      · rw [if_pos h2]
        rw [huniq e0 (List.mem_cons_self _ _) (Or.inr h2)]
      · rw [if_neg h2]
        apply ih
        · rcases List.mem_cons.mp he with rfl | he2
          · rcases hmatch with hx | hx
            · exact absurd hx h1
            · exact absurd hx h2
          · exact he2
        · exact hmatch
        · intro e2 he2 hm2
          exact huniq e2 (List.mem_cons_of_mem _ he2) hm2

/-- On a well-formed location, looking up an enhanced snapshot's id finds its
own merged entry. -/
theorem find_by_enhanced_id (snaps : List SnapDir) (d : SnapDir) (m : EnhancedMeta)
    (hwf : wellFormed snaps = true) (hd : d ∈ snaps) (hm : d.enhanced = some m) :
    findSnapshotEntry (listSnapshots snaps) m.id = some (mergeSnap d) := by
  rw [listSnapshots_eq_map]
  apply findSnapshotEntry_unique
  · exact List.mem_map_of_mem _ hd
  · exact Or.inl (by simp [mergeSnap, hm])
  · intro e2 he2 hm2
    rcases List.mem_map.mp he2 with ⟨d2, hd2, rfl⟩
    cases he : d2.enhanced with
    | none =>
      rcases hm2 with hx | hx
      · exfalso
        have hxs : d2.sysId = m.id := by simpa [mergeSnap, he] using hx
        have hms := (wellFormed_meta snaps hwf d hd m hm).2
        exact absurd (hxs ▸ mem_sysIds snaps d2 hd2) (by rw [hms]; simp)
      · exact absurd hx (by simp [mergeSnap, he])
    | some m2 =>
      rcases hm2 with hx | hx
      · have hxe : m2.id = m.id := by simpa [mergeSnap, he] using hx
        rw [enh_inj snaps (wellFormed_nodupEnh snaps hwf) d2 hd2 d hd m2 m he hm hxe]
      · exfalso
        have hxs : m2.systemSnapshotId = m.id := by simpa [mergeSnap, he] using hx
        have hms2 := (wellFormed_meta snaps hwf d2 hd2 m2 he).1
        have hms := (wellFormed_meta snaps hwf d hd m hm).2
        have : d2.sysId = m.id := by rw [← hms2, hxs]
        exact absurd (this ▸ mem_sysIds snaps d2 hd2) (by rw [hms]; simp)

/-- On a well-formed location, looking up an enhanced snapshot's underlying
system id finds the same merged entry. -/
theorem find_by_system_id (snaps : List SnapDir) (d : SnapDir) (m : EnhancedMeta)
    (hwf : wellFormed snaps = true) (hd : d ∈ snaps) (hm : d.enhanced = some m) :
    findSnapshotEntry (listSnapshots snaps) d.sysId = some (mergeSnap d) := by
  rw [listSnapshots_eq_map]
  apply findSnapshotEntry_unique
  · exact List.mem_map_of_mem _ hd
  · refine Or.inr ?_
    have := (wellFormed_meta snaps hwf d hd m hm).1
    simp [mergeSnap, hm, this]
  · intro e2 he2 hm2
    rcases List.mem_map.mp he2 with ⟨d2, hd2, rfl⟩
    cases he : d2.enhanced with
    | none =>
      rcases hm2 with hx | hx
      · have hxs : d2.sysId = d.sysId := by simpa [mergeSnap, he] using hx
        have : d2 = d := sys_inj snaps (wellFormed_nodupSys snaps hwf) d2 hd2 d hd hxs
        rw [this]
      · exact absurd hx (by simp [mergeSnap, he])
    | some m2 =>
      rcases hm2 with hx | hx
      · exfalso
        have hxe : m2.id = d.sysId := by simpa [mergeSnap, he] using hx
        have hms2 := (wellFormed_meta snaps hwf d2 hd2 m2 he).2
        exact absurd (hxe ▸ mem_sysIds snaps d hd) (by rw [hms2]; simp)
      · have hxs : m2.systemSnapshotId = d.sysId := by simpa [mergeSnap, he] using hx
        have hms2 := (wellFormed_meta snaps hwf d2 hd2 m2 he).1
        have : d2 = d :=
          sys_inj snaps (wellFormed_nodupSys snaps hwf) d2 hd2 d hd (by rw [← hms2, hxs])
        rw [this]

/-! ## C9 — id aliasing at the public interface -/

/-- C9: on a well-formed snapshot location, for every listed enhanced snapshot
both the enhanced id and the underlying system id resolve to the same listed
entry and the same underlying system snapshot, and `restore_snapshot` /
`delete_snapshot` behave identically on either id. -/
theorem c9_id_aliasing (st : MgrState) (exec : ExecEnv) (vols : VolAssoc)
    (d : SnapDir) (m : EnhancedMeta)
    (hwf : wellFormed st.snaps = true) (hd : d ∈ st.snaps) (hm : d.enhanced = some m) :
    findSnapshotEntry (listSnapshots st.snaps) m.id = some (mergeSnap d) ∧
    findSnapshotEntry (listSnapshots st.snaps) d.sysId = some (mergeSnap d) ∧
    (mergeSnap d).systemSnapshotId = some d.sysId ∧
    restoreSnapshot st exec vols m.id = restoreSnapshot st exec vols d.sysId ∧
    deleteSnapshot st.snaps m.id = deleteSnapshot st.snaps d.sysId := by
  have h1 := find_by_enhanced_id st.snaps d m hwf hd hm
  have h2 := find_by_system_id st.snaps d m hwf hd hm
  have h3 : (mergeSnap d).systemSnapshotId = some d.sysId := by
    have := (wellFormed_meta st.snaps hwf d hd m hm).1
    simp [mergeSnap, hm, this]
  refine ⟨h1, h2, h3, ?_, ?_⟩
  · unfold restoreSnapshot
    rw [h1, h2]
    simp [h3]
  · unfold deleteSnapshot
    rw [h1, h2]
    simp [h3]

/-- Witness for C9 on a concrete well-formed docker-enabled snapshot. -/
theorem c9_witness :
    restoreSnapshot c1CexState [] [] "revertit_enhanced_20240101_000000" =
      restoreSnapshot c1CexState [] [] "revertit_20240101_000000" := by
  have h := c9_id_aliasing c1CexState [] [] c1CexDir
      ⟨"revertit_enhanced_20240101_000000", "revertit_20240101_000000",
        "2024-01-01T00:00:01", "enhanced", true⟩
      (by decide) (by simp [c1CexState]) (by decide)
  exact h.2.2.2.1

/-! ## C8 — retention bound of cleanup_old_snapshots -/

theorem nodupS_iff (l : List String) : nodupS l = true ↔ l.Nodup := by
  induction l with
  | nil => simp [nodupS]
  | cons x r ih =>
    simp only [nodupS, Bool.and_eq_true, List.nodup_cons, ih]
    constructor
    · rintro ⟨h1, h2⟩
      refine ⟨fun hmem => ?_, h2⟩
      rw [(memS_iff x r).mpr hmem] at h1
      exact absurd h1 (by simp)
    · rintro ⟨h1, h2⟩
      refine ⟨?_, h2⟩
      have : memS x r = false := by
        revert h1
        cases hx : memS x r
        · intro _; rfl
        · intro h1; exact absurd ((memS_iff x r).mp hx) h1
      rw [this]; rfl

theorem memS_false_iff (x : String) (l : List String) : memS x l = false ↔ x ∉ l := by
  constructor
  · intro h hmem
    rw [(memS_iff x l).mpr hmem] at h
    cases h
  · intro h
    cases hx : memS x l
    · rfl
    · exact absurd ((memS_iff x l).mp hx) h

theorem sublist_wellFormed (l2 l1 : List SnapDir) (hs : l2.Sublist l1)
    (h : wellFormed l1 = true) : wellFormed l2 = true := by
  unfold wellFormed at *
  have h1 := ((Bool.and_eq_true _ _).mp ((Bool.and_eq_true _ _).mp h).1).1
  have h2 := ((Bool.and_eq_true _ _).mp ((Bool.and_eq_true _ _).mp h).1).2
  have h3 := ((Bool.and_eq_true _ _).mp h).2
  refine (Bool.and_eq_true _ _).mpr ⟨(Bool.and_eq_true _ _).mpr ⟨?_, ?_⟩, ?_⟩
  · exact (nodupS_iff _).mpr (List.Nodup.sublist (hs.map _) ((nodupS_iff _).mp h1))
  · exact (nodupS_iff _).mpr (List.Nodup.sublist (hs.filterMap _) ((nodupS_iff _).mp h2))
  · apply List.all_eq_true.mpr
    intro d hd
    have hbig := List.all_eq_true.mp h3 d (hs.subset hd)
    cases hm : d.enhanced with
    | none => simp [hm]
    | some m =>
      simp only [hm] at hbig ⊢
      have hb1 := ((Bool.and_eq_true _ _).mp hbig).1
      have hb2 := ((Bool.and_eq_true _ _).mp hbig).2
      refine (Bool.and_eq_true _ _).mpr ⟨hb1, ?_⟩
      have hfe : memS m.id (sysIds l1) = false := by
        revert hb2; cases memS m.id (sysIds l1) <;> simp
      have h5 : memS m.id (sysIds l2) = false := by
        apply (memS_false_iff _ _).mpr
        intro hmem
        exact (memS_false_iff _ _).mp hfe ((hs.map _).subset hmem)
      rw [h5]; rfl

theorem removeDirs_eq_filter (ssid : String) :
    ∀ l : List SnapDir, removeDirs ssid l =
      l.filter fun d => if d.sysId = ssid then false else true := by
  intro l
  induction l with
  | nil => rfl
  | cons d rest ih =>
    by_cases h : d.sysId = ssid
    · simp [removeDirs, h, ih, List.filter_cons]
    · simp [removeDirs, h, ih, List.filter_cons]

theorem removeDirs_sublist (ssid : String) (l : List SnapDir) :
    (removeDirs ssid l).Sublist l := by
  rw [removeDirs_eq_filter]
  exact List.filter_sublist _

theorem mem_removeDirs (ssid : String) (l : List SnapDir) (d : SnapDir)
    (hd : d ∈ l) (hne : d.sysId ≠ ssid) : d ∈ removeDirs ssid l := by
  rw [removeDirs_eq_filter]
  exact List.mem_filter.mpr ⟨hd, by simp [hne]⟩

theorem findDir_none (s : String) :
    ∀ l : List SnapDir, findDir l s = none → ∀ d ∈ l, d.sysId ≠ s := by
  intro l
  induction l with
  | nil => intro _ d hd; cases hd
  | cons d0 rest ih =>
    intro h d hd
    unfold findDir at h
    by_cases h0 : d0.sysId = s
    · rw [if_pos h0] at h; cases h
    · rw [if_neg h0] at h
      rcases List.mem_cons.mp hd with rfl | hd2
      · exact h0
      · exact ih h d hd2

theorem baseDeleteSnapshot_of_mem (l : List SnapDir) (d : SnapDir) (hd : d ∈ l) :
    baseDeleteSnapshot l d.sysId = (true, removeDirs d.sysId l) := by
  unfold baseDeleteSnapshot
  cases hfd : findDir l d.sysId with
  | some d2 => rfl
  | none => exact absurd rfl (findDir_none _ l hfd d hd)

theorem cleanupDeleteLoop_map :
    ∀ (ds : List SnapDir) (acc : List SnapDir), wellFormed acc = true →
      nodupS (sysIds ds) = true →
      (∀ d ∈ ds, d ∈ acc ∧ ∃ m, d.enhanced = some m) →
      cleanupDeleteLoop (ds.map mergeSnap) acc =
        ds.foldl (fun a d => removeDirs d.sysId a) acc := by
  intro ds
  induction ds with
  | nil => intro acc _ _ _; rfl
  | cons d rest ih =>
    intro acc hwfacc hnod hds
    obtain ⟨hdacc, m, hm⟩ := hds d (List.mem_cons_self _ _)
    have hfind := find_by_enhanced_id acc d m hwfacc hdacc hm
    have hssid : (mergeSnap d).systemSnapshotId = some d.sysId := by
      have := (wellFormed_meta acc hwfacc d hdacc m hm).1
      simp [mergeSnap, hm, this]
    have hid : (mergeSnap d).id = m.id := by simp [mergeSnap, hm]
    have hdel : deleteSnapshot acc (mergeSnap d).id = (true, removeDirs d.sysId acc) := by
      unfold deleteSnapshot
      rw [hid, hfind]
      simp only [hssid, Option.getD_some]
      exact baseDeleteSnapshot_of_mem acc d hdacc
    have hnodrest : nodupS (sysIds rest) = true := by
      have : (!(memS d.sysId (sysIds rest)) && nodupS (sysIds rest)) = true := by
        simpa [sysIds, nodupS] using hnod
      exact ((Bool.and_eq_true _ _).mp this).2
    have hmemfalse : memS d.sysId (sysIds rest) = false := by
      have : (!(memS d.sysId (sysIds rest)) && nodupS (sysIds rest)) = true := by
        simpa [sysIds, nodupS] using hnod
      have h1 := ((Bool.and_eq_true _ _).mp this).1
      revert h1; cases memS d.sysId (sysIds rest) <;> simp
    simp only [List.map_cons, cleanupDeleteLoop, hdel, List.foldl_cons]
    apply ih
    · exact sublist_wellFormed _ _ (removeDirs_sublist _ _) hwfacc
    · exact hnodrest
    · intro d2 hd2
      obtain ⟨hd2acc, m2, hm2⟩ := hds d2 (List.mem_cons_of_mem _ hd2)
      refine ⟨mem_removeDirs _ _ _ hd2acc ?_, m2, hm2⟩
      intro heq
      have : memS d.sysId (sysIds rest) = true := by
        apply (memS_iff _ _).mpr
        exact heq ▸ List.mem_map_of_mem _ hd2
      rw [this] at hmemfalse; cases hmemfalse

theorem foldl_removeDirs_eq :
    ∀ (ds : List SnapDir) (acc : List SnapDir),
      ds.foldl (fun a d => removeDirs d.sysId a) acc =
        acc.filter fun d0 => !(memS d0.sysId (sysIds ds)) := by
  intro ds
  induction ds with
  | nil => intro acc; simp [sysIds, memS]
  | cons d rest ih =>
    intro acc
    simp only [List.foldl_cons]
    rw [ih, removeDirs_eq_filter, List.filter_filter]
    apply List.filter_congr
    intro d0 _
    by_cases h : d0.sysId = d.sysId
    · simp [sysIds, memS, h]
    · simp [sysIds, memS, h, Ne.symm h]

theorem filterOfMap (p : ListedSnapshot → Bool) :
    ∀ l : List SnapDir, (l.map mergeSnap).filter p =
      (l.filter fun d => p (mergeSnap d)).map mergeSnap := by
  intro l
  induction l with
  | nil => rfl
  | cons d rest ih =>
    by_cases h : p (mergeSnap d) = true
    · simp [List.filter_cons, h, ih]
    · have hf : p (mergeSnap d) = false := by revert h; cases p (mergeSnap d) <;> simp
      simp [List.filter_cons, hf, ih]

theorem filter_filter_comm (p q : SnapDir → Bool) :
    ∀ l : List SnapDir, (l.filter p).filter q = (l.filter q).filter p := by
  intro l
  induction l with
  | nil => rfl
  | cons d rest ih =>
    by_cases hp : p d = true <;> by_cases hq : q d = true <;>
      simp [List.filter_cons, hp, hq, ih]

theorem baseCleanup_sublist (b : Option Nat) (snaps : List SnapDir) :
    (baseCleanup b snaps).Sublist snaps := by
  cases b with
  | none => exact List.Sublist.refl _
  | some m => exact List.take_sublist _ _

/-- C8 counterexample: as stated the claim is false — with a configured
`docker_snapshot_retention` of 0 (falsy in Python) the Docker cleanup phase is
skipped entirely, so one enhanced snapshot remains although the limit says at
most zero may. -/
theorem c8_counterexample :
    ¬ (∀ (st : MgrState) (n : Nat), wellFormed st.snaps = true →
        st.dockerEnabled = true → st.dockerRetention = some n →
        (listedEnhanced (cleanupOldSnapshots st)).length ≤ n) := by
  intro h
  exact absurd (h ⟨[c1CexDir], true, some 0, none⟩ 0 (by decide) rfl rfl) (by decide)

/-- C8 amended: with Docker integration enabled and a configured nonzero
`docker_snapshot_retention` N (a configured 0 is falsy and disables the Docker
cleanup phase), after `cleanup_old_snapshots` at most N enhanced snapshots
remain, and the Docker cleanup phase deletes exactly the oldest enhanced
snapshots beyond the limit: the surviving enhanced entries are precisely the
first N (newest-first) enhanced entries of the post-base-cleanup listing. -/
theorem c8_retention_bound (st : MgrState) (n : Nat)
    (hwf : wellFormed st.snaps = true) (hde : st.dockerEnabled = true)
    (hret : st.dockerRetention = some n) (hn : ¬ n = 0) :
    listedEnhanced (cleanupOldSnapshots st) =
      (listedEnhanced (baseCleanup st.baseMax st.snaps)).take n ∧
    (listedEnhanced (cleanupOldSnapshots st)).length ≤ n := by
  have hwf1 : wellFormed (baseCleanup st.baseMax st.snaps) = true :=
    sublist_wellFormed _ _ (baseCleanup_sublist _ _) hwf
  have hmain : listedEnhanced (cleanupOldSnapshots st) =
      (listedEnhanced (baseCleanup st.baseMax st.snaps)).take n := by
    unfold listedEnhanced
    simp only [cleanupOldSnapshots, hret, hde, eq_self_iff_true, if_true]
    rw [if_neg hn]
    set s1 := baseCleanup st.baseMax st.snaps with hs1def
    by_cases hlen : ((listSnapshots s1).filter isEnhancedListed).length > n
    · rw [if_pos hlen]
      have hEmap : (listSnapshots s1).filter isEnhancedListed =
          (s1.filter fun d => isEnhancedListed (mergeSnap d)).map mergeSnap := by
        rw [listSnapshots_eq_map]
        exact filterOfMap isEnhancedListed s1
      set E := s1.filter fun d => isEnhancedListed (mergeSnap d) with hEdef
      have hdrop : ((listSnapshots s1).filter isEnhancedListed).drop n =
          (E.drop n).map mergeSnap := by
        rw [hEmap, ← List.map_drop]
      have hnodE : (sysIds E).Nodup := by
        have h1 : (sysIds s1).Nodup := (nodupS_iff _).mp (wellFormed_nodupSys _ hwf1)
        exact List.Nodup.sublist ((List.filter_sublist _).map _) h1
      have hds : ∀ d ∈ E.drop n, d ∈ s1 ∧ ∃ m, d.enhanced = some m := by
        intro d hd
        have hdE : d ∈ E := List.mem_of_mem_drop hd
        have hdm := List.mem_filter.mp hdE
        refine ⟨hdm.1, ?_⟩
        cases he : d.enhanced with
        | some m => exact ⟨m, rfl⟩
        | none =>
          exfalso
          have h2 := hdm.2
          simp [mergeSnap, he, isEnhancedListed] at h2
      have hsysdrop : sysIds (E.drop n) = (sysIds E).drop n := by
        unfold sysIds
        rw [List.map_drop]
      have hnodds : nodupS (sysIds (E.drop n)) = true := by
        apply (nodupS_iff _).mpr
        rw [hsysdrop]
        exact List.Nodup.sublist (List.drop_sublist _ _) hnodE
      rw [hdrop, cleanupDeleteLoop_map (E.drop n) s1 hwf1 hnodds hds,
        foldl_removeDirs_eq]
      have hdisj : List.Disjoint ((sysIds E).take n) ((sysIds E).drop n) := by
        have h0 := hnodE
        rw [← List.take_append_drop n (sysIds E)] at h0
        exact (List.nodup_append.mp h0).2.2
      have hsplit : (E.filter fun d0 => !(memS d0.sysId (sysIds (E.drop n)))) =
          E.take n := by
        have htake : ((E.take n).filter fun d0 => !(memS d0.sysId (sysIds (E.drop n)))) =
            E.take n := by
          apply List.filter_eq_self.mpr
          intro a ha
          have hmem : a.sysId ∈ (sysIds E).take n := by
            have : a.sysId ∈ sysIds (E.take n) := List.mem_map_of_mem _ ha
            rwa [show sysIds (E.take n) = (sysIds E).take n from by
              unfold sysIds; rw [List.map_take]] at this
          have : memS a.sysId (sysIds (E.drop n)) = false := by
            apply (memS_false_iff _ _).mpr
            rw [hsysdrop]
            intro hmem2
            exact hdisj hmem hmem2
          rw [this]; rfl
        have hdropnil : ((E.drop n).filter fun d0 =>
            !(memS d0.sysId (sysIds (E.drop n)))) = [] := by
          apply List.filter_eq_nil_iff.mpr
          intro a ha
          have : memS a.sysId (sysIds (E.drop n)) = true :=
            (memS_iff _ _).mpr (List.mem_map_of_mem _ ha)
          rw [this]
          simp
        have h0 : ((E.take n ++ E.drop n).filter fun d0 =>
            !(memS d0.sysId (sysIds (E.drop n)))) = E.take n := by
          rw [List.filter_append, htake, hdropnil, List.append_nil]
        rwa [List.take_append_drop] at h0
      rw [listSnapshots_eq_map (s1.filter fun d0 => !(memS d0.sysId (sysIds (E.drop n)))),
        filterOfMap, filter_filter_comm, ← hEdef, hsplit]
      rw [hEmap, ← List.map_take]
    · rw [if_neg hlen]
      rw [List.take_of_length_le (Nat.le_of_not_lt hlen)]
  refine ⟨hmain, ?_⟩
  rw [hmain, List.length_take]
  exact min_le_left _ _

/-- Witness for C8's amended claim on a concrete state with two enhanced
snapshots and retention one. -/
theorem c8_witness :
    listedEnhanced (cleanupOldSnapshots c8WitState) =
      (listedEnhanced (baseCleanup c8WitState.baseMax c8WitState.snaps)).take 1 :=
  (c8_retention_bound c8WitState 1 (by decide) rfl rfl (by decide)).1

end RevertIT
